import Mathlib

/-!
# Credential Manager and REST handlers of openstorage: a shallow embedding

Sources embedded here: `creds/creds.go`, `creds/database.go`, `creds/manager.go`
(namespace `Creds`), `volume/volume_not_supported.go` (namespace `Volume`), and
the driver resolver, the handlers and the route tables of
`api/server/volume.go`, `api/server/creds.go` and `api/server/cluster.go`
(namespace `Server`).

The Go code talks to three external services: the key-value store `kvdb`
(`Lock`, `Unlock`, `Get`, `Put`), the secret vault (`PutSecret`) and the
`encoding/json` codec (`Marshal`, `Unmarshal`); it also draws ids from
`uuid.New()`.  The services are modelled as explicit state (`World`), the
answers that a single operation receives from them (errors, the fresh uuid)
are collected in `Env`, and the JSON codec is a parameter (`Json`).
-/

namespace Creds

/-- Go `error` values, represented by their message (`err.Error()`); `none` is `nil`. -/
abbrev Error := String

/-- Go `map[string]interface{}` with values drawn from `V` (the dynamic values
    that `interface{}` holds); finite, one value per key. -/
abbrev GoMap (V : Type) := Finmap (fun _ : String => V)

/-- Embedding of `CredentialEntry` of `creds/creds.go`.  Both maps travel through the code
    as opaque `interface{}` values, hence as elements of `V`. -/
structure CredentialEntry (V : Type) where
  NonSecretsMap : V
  SecretsMap : V

/-- Embedding of `CredentialInfo` of `creds/creds.go`; `Credentials = none` is the nil map. -/
structure CredentialInfo (V : Type) where
  Credentials : Option (GoMap V)
  deriving DecidableEq

/-- Model of `kvdb.KVPair`, restricted to the fields the code reads. -/
structure KVPair where
  Key : String
  Value : String
  KVDBIndex : Nat
  deriving DecidableEq

/-- Calls issued to the external services, in program order. -/
inductive Event (V : Type) where
  | lock (key : String)
  | unlock (key : String)
  | get (key : String)
  | put (key : String) (value : String)
  | putSecret (id : String) (secret : V)
  deriving DecidableEq

/-- State of the external services.  `locked` tells whether the running
    operation holds the credential lock; `log` records every call issued. -/
structure World (V : Type) where
  locked : Bool
  store : String → Option KVPair
  nextIndex : Nat
  vault : String → Option V
  log : List (Event V)

/-- What the outside world answers during one operation: the error (if any) of
    `kvdb.Lock`, `kvdb.Get`, `kvdb.Put` and `PutSecret`, and the value of `uuid.New()`. -/
structure Env where
  lockErr : Option Error
  getErr : Option Error
  putErr : Option Error
  secretErr : Option Error
  uuid : String
  deriving DecidableEq

/-- The `encoding/json` codec at type `CredentialInfo`.  `Unmarshal data db`
    decodes `data` into the existing value `db` and returns the value so
    filled together with the error. -/
structure Json (V : Type) where
  Marshal : CredentialInfo V → Except Error String
  Unmarshal : String → CredentialInfo V → CredentialInfo V × Option Error

/-- Result of a Go call that may panic instead of returning. -/
inductive Outcome (α : Type) where
  | returned (a : α)
  | panicked (msg : String)
  deriving DecidableEq

/-- The constant `credLockKey` of `creds/manager.go`. -/
def credLockKey : String := "/cred/lock"

/-- The constant `CredentialsDBKey` of `creds/database.go`. -/
def CredentialsDBKey : String := "credentials"

/-- The constant `APIVersion` of `creds/creds.go`. -/
def APIVersion : String := "v1"

/-- The value `kvdb.ErrNotFound` answered by `Get` on a missing key. -/
def ErrNotFound : Error := "Key not found"

/-- The two bytes of `[]byte("{}")`. -/
def emptyObject : String := "\x7b\x7d"

/-- Model of `strings.Contains` on character lists. -/
def containsChars : List Char → List Char → Bool
  | [], sub => sub.isEmpty
  | c :: cs, sub => sub.isPrefixOf (c :: cs) || containsChars cs sub

/-- Model of `strings.Contains(s, substr)`. -/
def stringsContains (s substr : String) : Bool :=
  containsChars s.data substr.data

section Services

variable {V : Type}

/-- Model of `kvdb.Lock(key)`: fails with the error the environment answers, otherwise
    the caller holds the lock. -/
def kvdbLock (w : World V) (env : Env) (key : String) : World V × Option Error :=
  let w1 := { w with log := w.log ++ [Event.lock key] }
  match env.lockErr with
  | some e => (w1, some e)
  | none => ({ w1 with locked := true }, none)

/-- Model of `kvdb.Unlock(kvlock)`. -/
def kvdbUnlock (w : World V) (key : String) : World V :=
  { w with locked := false, log := w.log ++ [Event.unlock key] }

/-- Model of `kvdb.Get(key)`: the pair, or `ErrNotFound` on a missing key, or the error
    the environment answers. -/
def kvdbGet (w : World V) (env : Env) (key : String) :
    World V × Option KVPair × Option Error :=
  let w1 := { w with log := w.log ++ [Event.get key] }
  match env.getErr with
  | some e => (w1, none, some e)
  | none =>
    match w.store key with
    | some kv => (w1, some kv, none)
    | none => (w1, none, some ErrNotFound)

/-- Model of `kvdb.Put(key, value, 0)`. -/
def kvdbPut (w : World V) (env : Env) (key : String) (value : String) :
    World V × Option KVPair × Option Error :=
  let w1 := { w with log := w.log ++ [Event.put key value] }
  match env.putErr with
  | some e => (w1, none, some e)
  | none =>
    let kv : KVPair := { Key := key, Value := value, KVDBIndex := w.nextIndex }
    ({ w1 with store := Function.update w.store key (some kv),
               nextIndex := w.nextIndex + 1 }, some kv, none)

/-- Model of `secrets.Instance().PutSecret(id, secret, nil)`. -/
def PutSecret (w : World V) (env : Env) (id : String) (secret : V) :
    World V × Option Error :=
  let w1 := { w with log := w.log ++ [Event.putSecret id secret] }
  match env.secretErr with
  | some e => (w1, some e)
  | none => ({ w1 with vault := Function.update w.vault id (some secret) }, none)

end Services

section Database

variable {V : Type}

/-- The part of `readClusterInfo` (`creds/database.go`) that follows
    `kv, err := kvdb.Get(CredentialsDBKey)`. -/
def readClusterInfoOf (J : Json V) (kv : Option KVPair) (err : Option Error) :
    CredentialInfo V × Nat × Option Error :=
  let db : CredentialInfo V := { Credentials := some ∅ }
  if (match err with
      | some e => !stringsContains e "Key not found"
      | none => false) then
    (db, 0, err)
  else
    match kv with
    | none => (db, 0, none)
    | some kv =>
      if kv.Value = emptyObject then
        (db, 0, none)
      else
        match J.Unmarshal kv.Value db with
        | (db1, some e) => (db1, 0, some e)
        | (db1, none) => (db1, kv.KVDBIndex, none)

/-- Embedding of `readClusterInfo` of `creds/database.go`. -/
def readClusterInfo (J : Json V) (w : World V) (env : Env) :
    World V × CredentialInfo V × Nat × Option Error :=
  match kvdbGet w env CredentialsDBKey with
  | (w1, kv, err) => (w1, readClusterInfoOf J kv err)

/-- Embedding of `writeClusterInfo` of `creds/database.go`. -/
def writeClusterInfo (J : Json V) (w : World V) (env : Env) (db : CredentialInfo V) :
    World V × Option KVPair × Option Error :=
  match J.Marshal db with
  | .error e => (w, none, some e)
  | .ok b =>
    match kvdbPut w env CredentialsDBKey b with
    | (w1, _, some e) => (w1, none, some e)
    | (w1, kvp, none) => (w1, kvp, none)

end Database

namespace CredentialManager

variable {V : Type}

/-- The deferred `kvdb.Unlock(kvlock)`: runs when the function body is left,
    by return or by panic. -/
def deferUnlock {α : Type} (r : World V × α) : World V × α :=
  (kvdbUnlock r.1 credLockKey, r.2)

/-- Embedding of `CredentialManager.List` of `creds/manager.go`. -/
def List (J : Json V) (w : World V) (env : Env) :
    World V × Option (GoMap V) × Option Error :=
  match kvdbLock w env credLockKey with
  | (w1, some err) => (w1, none, some err)
  | (w1, none) =>
    deferUnlock
      (match readClusterInfo J w1 env with
       | (w2, _, _, some err) => (w2, none, some err)
       | (w2, db, _, none) => (w2, db.Credentials, none))

/-- Embedding of `CredentialManager.Create` of `creds/manager.go`. -/
def Create (J : Json V) (w : World V) (env : Env) (cred : CredentialEntry V) :
    World V × Outcome (Option Error) :=
  match kvdbLock w env credLockKey with
  | (w1, some _) => (w1, .returned none)
  | (w1, none) =>
    deferUnlock
      (match readClusterInfo J w1 env with
       | (w2, _, _, some err) => (w2, .returned (some err))
       | (w2, db, _, none) =>
         let uuid := env.uuid
         match PutSecret w2 env uuid cred.SecretsMap with
         | (w3, some _) =>
           (w3, .returned (some "Unable to set cluster secret key. Check credentials"))
         | (w3, none) =>
           match db.Credentials with
           | none => (w3, .panicked "assignment to entry in nil map")
           | some m =>
             match writeClusterInfo J w3 env
                 { Credentials := some (m.insert uuid cred.NonSecretsMap) } with
             | (w4, _, some err) => (w4, .returned (some err))
             | (w4, _, none) => (w4, .returned none))

/-- Embedding of `CredentialManager.Update` of `creds/manager.go`. -/
def Update (J : Json V) (w : World V) (env : Env) (uuid : String)
    (cred : CredentialEntry V) : World V × Outcome (Option Error) :=
  match kvdbLock w env credLockKey with
  | (w1, some _) => (w1, .returned none)
  | (w1, none) =>
    deferUnlock
      (match readClusterInfo J w1 env with
       | (w2, _, _, some err) => (w2, .returned (some err))
       | (w2, db, _, none) =>
         match db.Credentials with
         | none => (w2, .panicked "assignment to entry in nil map")
         | some m =>
           match writeClusterInfo J w2 env
               { Credentials := some (m.insert uuid cred.NonSecretsMap) } with
           | (w3, _, some err) => (w3, .returned (some err))
           | (w3, _, none) => (w3, .returned none))

/-- Embedding of `CredentialManager.Delete` of `creds/manager.go`.  `delete` on a nil map
    is a no-op. -/
def Delete (J : Json V) (w : World V) (env : Env) (uuid : String) :
    World V × Outcome (Option Error) :=
  match kvdbLock w env credLockKey with
  | (w1, some _) => (w1, .returned none)
  | (w1, none) =>
    deferUnlock
      (match readClusterInfo J w1 env with
       | (w2, _, _, some err) => (w2, .returned (some err))
       | (w2, db, _, none) =>
         match writeClusterInfo J w2 env
             { Credentials := db.Credentials.map (Finmap.erase uuid) } with
         | (w3, _, some err) => (w3, .returned (some err))
         | (w3, _, none) => (w3, .returned none))

end CredentialManager

section Harness

variable {V : Type}

/-- Go `m[k]` read with its presence flag; a nil map has no entry. -/
def entryOf (m : Option (GoMap V)) (k : String) : Option V :=
  m.bind (Finmap.lookup k)

/-- Number of entries of a map, `len(m)`; a nil map has length 0. -/
def entryCount (m : Option (GoMap V)) : Nat :=
  match m with
  | none => 0
  | some m => m.keys.card

/-- The secret-vault writes issued in a call log, oldest first. -/
def vaultWrites : List (Event V) → List (String × V)
  | [] => []
  | Event.putSecret id secret :: es => (id, secret) :: vaultWrites es
  | _ :: es => vaultWrites es

/-- The document-store writes issued in a call log, oldest first. -/
def storeWrites : List (Event V) → List (String × String)
  | [] => []
  | Event.put key value :: es => (key, value) :: storeWrites es
  | _ :: es => storeWrites es

/-- The codec round-trips: a text produced by `Marshal` is never the two
    bytes `{}`, and `Unmarshal` of it into the fresh value that
    `readClusterInfo` prepares gives the marshalled document back. -/
def Json.RoundTrips (J : Json V) : Prop :=
  ∀ db b, J.Marshal db = .ok b →
    b ≠ emptyObject ∧ J.Unmarshal b { Credentials := some ∅ } = (db, none)

/-- A series of `Create` calls, run one after the other in the order in which
    the credential lock serialises them; returns the final state together
    with what each call returned. -/
def runCreates (J : Json V) (w : World V) :
    List (Env × CredentialEntry V) → World V × List (Outcome (Option Error))
  | [] => (w, [])
  | (env, cred) :: rest =>
    let r := CredentialManager.Create J w env cred
    let rs := runCreates J r.1 rest
    (rs.1, r.2 :: rs.2)

end Harness

section Samples

/-- A few credential documents with their JSON texts, values being strings. -/
def sampleTable : List (CredentialInfo String × String) :=
  [ ({ Credentials := none }, "\x7b\"Credentials\":null\x7d"),
    ({ Credentials := some ∅ }, "\x7b\"Credentials\":\x7b\x7d\x7d"),
    ({ Credentials := some (Finmap.singleton "u1" "aws") },
      "\x7b\"Credentials\":\x7b\"u1\":\"aws\"\x7d\x7d") ]

/-- A codec that knows the documents of `sampleTable` and rejects all else. -/
def sampleJson : Json String where
  Marshal db :=
    match sampleTable.find? (fun p => decide (p.1 = db)) with
    | some p => .ok p.2
    | none => .error "json: unsupported value"
  Unmarshal data db :=
    match sampleTable.find? (fun p => decide (p.2 = data)) with
    | some p => (p.1, none)
    | none => (db, some "invalid character")

/-- A world with an empty store, an empty vault and the lock free. -/
def world0 : World String :=
  { locked := false, store := fun _ => none, nextIndex := 1,
    vault := fun _ => none, log := [] }

/-- All services answer without error; `uuid.New()` gives `"u1"`. -/
def env0 : Env :=
  { lockErr := none, getErr := none, putErr := none, secretErr := none, uuid := "u1" }

/-- As `env0`, but `kvdb.Lock` times out. -/
def envLockFails : Env :=
  { lockErr := some "lock timeout", getErr := none, putErr := none,
    secretErr := none, uuid := "u1" }

/-- As `env0`, but the secret vault rejects the write. -/
def envVaultFails : Env :=
  { lockErr := none, getErr := none, putErr := none,
    secretErr := some "vault sealed", uuid := "u1" }

/-- As `env0`, but `kvdb.Get` cannot reach the store. -/
def envGetFails : Env :=
  { lockErr := none, getErr := some "connection refused", putErr := none,
    secretErr := none, uuid := "u1" }

/-- The store holds the document with the single entry `u1 ↦ "aws"`. -/
def worldOne : World String :=
  { locked := false,
    store := fun k =>
      if k = CredentialsDBKey then
        some { Key := CredentialsDBKey,
               Value := "\x7b\"Credentials\":\x7b\"u1\":\"aws\"\x7d\x7d", KVDBIndex := 1 }
      else none,
    nextIndex := 2, vault := fun _ => none, log := [] }

/-- The store holds bytes that are not a credential document. -/
def worldGarbage : World String :=
  { locked := false,
    store := fun k =>
      if k = CredentialsDBKey then
        some { Key := CredentialsDBKey, Value := "not json", KVDBIndex := 1 }
      else none,
    nextIndex := 2, vault := fun _ => none, log := [] }

/-- Number of calls that returned no error. -/
def successes : List (Outcome (Option Error)) → Nat
  | [] => 0
  | Outcome.returned none :: rs => successes rs + 1
  | _ :: rs => successes rs

/-- As `env0`, but `kvdb.Put` fails. -/
def envPutFails : Env :=
  { lockErr := none, getErr := none, putErr := some "put failed",
    secretErr := none, uuid := "u1" }

/-- The store holds a document whose `Credentials` field is JSON `null`. -/
def worldNullDoc : World String :=
  { locked := false,
    store := fun k =>
      if k = CredentialsDBKey then
        some { Key := CredentialsDBKey, Value := "\x7b\"Credentials\":null\x7d",
               KVDBIndex := 1 }
      else none,
    nextIndex := 2, vault := fun _ => none, log := [] }

/-- As `worldOne`, with the secret of `u1` in the vault. -/
def worldOneSecret : World String :=
  { worldOne with vault := fun k => if k = "u1" then some "key" else none }

end Samples

end Creds

/-! ## Declarations of package `api` used by the handlers -/

namespace Api

/-- Modelled from its use in `api/server/volume.go`: the struct
    `api.CloudsnapScheduleInfo`, whose declaration is not among the sources.
    A field left out of a composite literal holds its zero value. -/
structure CloudsnapScheduleInfo where
  VolumeID : String
  Schedule : String
  CredID : String
  MaxBackups : Nat
  deriving DecidableEq

/-- Modelled from its use in `api/server/volume.go`: the struct
    `api.VolumeResponse`, whose declaration is not among the sources. -/
structure VolumeResponse where
  Error : String
  deriving DecidableEq

/-- Modelled from its use in `api/server/creds.go`: the struct
    `api.CredentialResponse`, whose declaration is not among the sources. -/
structure CredentialResponse where
  Error : String
  deriving DecidableEq

/-- Modelled from its use in `processErrorForVolSetResponse`: the enum
    `api.VolumeActionParam`, whose declaration is not among the sources. -/
inductive VolumeActionParam where
  | VOLUME_ACTION_PARAM_NONE
  | VOLUME_ACTION_PARAM_OFF
  | VOLUME_ACTION_PARAM_ON
  deriving DecidableEq

/-- Modelled from its use in `processErrorForVolSetResponse`: the fields of
    `api.VolumeStateAction` that the function reads. -/
structure VolumeStateAction where
  Attach : VolumeActionParam
  Mount : VolumeActionParam
  deriving DecidableEq

/-- Modelled from its use in `processErrorForVolSetResponse`: the struct
    `api.VolumeSetResponse`; both fields are pointers, `Vol` stands for
    `api.Volume`. -/
structure VolumeSetResponse (Vol : Type) where
  Volume : Option Vol
  VolumeResponse : Option VolumeResponse
  deriving DecidableEq

/-- Modelled from the spec: the generated table `api.ResourceType_name`
    (package `api` is not among the sources), holding the five resource type
    numbers that the documentation of `enumerateAlerts` lists: 0 all, 1 volume,
    2 node, 3 cluster, 4 drive. -/
def ResourceType_name (n : Int) : Option String :=
  if n = 0 then some "RESOURCE_TYPE_NONE"
  else if n = 1 then some "RESOURCE_TYPE_VOLUME"
  else if n = 2 then some "RESOURCE_TYPE_NODE"
  else if n = 3 then some "RESOURCE_TYPE_CLUSTER"
  else if n = 4 then some "RESOURCE_TYPE_DRIVE"
  else none

/-- The number of `api.ResourceType_RESOURCE_TYPE_NONE`. -/
def ResourceType_RESOURCE_TYPE_NONE : Int := 0

/-- The number of `api.ResourceType_RESOURCE_TYPE_VOLUME`. -/
def ResourceType_RESOURCE_TYPE_VOLUME : Int := 1

/-- The number of `api.ResourceType_RESOURCE_TYPE_NODE`. -/
def ResourceType_RESOURCE_TYPE_NODE : Int := 2

/-- The number of `api.ResourceType_RESOURCE_TYPE_CLUSTER`. -/
def ResourceType_RESOURCE_TYPE_CLUSTER : Int := 3

/-- The number of `api.ResourceType_RESOURCE_TYPE_DRIVE`. -/
def ResourceType_RESOURCE_TYPE_DRIVE : Int := 4

end Api

/-! ## The not-supported stand-ins of `volume/volume_not_supported.go` -/

namespace Volume

open Creds (Error GoMap)

set_option linter.unusedVariables false

/-- Modelled from the spec: the error value `ErrNotSupported` of package
    `volume`, declared outside the sources given; it stands for the
    `NotSupported` failure of a declined capability. -/
def ErrNotSupported : Error := "Operation not supported"

/-- Method `Attach` of `blockNotSupported`. -/
def blockNotSupported.Attach (volumeID : String) (attachOptions : Option (GoMap String)) :
    String × Option Error :=
  ("", some ErrNotSupported)

/-- Method `Detach` of `blockNotSupported`. -/
def blockNotSupported.Detach (volumeID : String) (options : Option (GoMap String)) :
    Option Error :=
  some ErrNotSupported

/-- Method `Snapshot` of `snapshotNotSupported`. -/
def snapshotNotSupported.Snapshot {VolumeLocator : Type} (volumeID : String)
    (readonly : Bool) (locator : Option VolumeLocator) : String × Option Error :=
  ("", some ErrNotSupported)

/-- Method `Restore` of `snapshotNotSupported`. -/
def snapshotNotSupported.Restore (volumeID snapshotID : String) : Option Error :=
  some ErrNotSupported

/-- Method `Read` of `ioNotSupported`. -/
def ioNotSupported.Read (volumeID : String) (buffer : List Nat) (size : Nat) (offset : Int) :
    Int × Option Error :=
  (0, some ErrNotSupported)

/-- Method `Write` of `ioNotSupported`. -/
def ioNotSupported.Write (volumeID : String) (buffer : List Nat) (size : Nat) (offset : Int) :
    Int × Option Error :=
  (0, some ErrNotSupported)

/-- Method `Flush` of `ioNotSupported`. -/
def ioNotSupported.Flush (volumeID : String) : Option Error :=
  some ErrNotSupported

/-- Method `Stats` of `statsNotSupported`. -/
def statsNotSupported.Stats (Stats : Type) (volumeID : String) (cumulative : Bool) :
    Option Stats × Option Error :=
  (none, some ErrNotSupported)

/-- Method `UsedSize` of `statsNotSupported`. -/
def statsNotSupported.UsedSize (volumeID : String) : Nat × Option Error :=
  (0, some ErrNotSupported)

/-- Method `GetActiveRequests` of `statsNotSupported`. -/
def statsNotSupported.GetActiveRequests (ActiveRequests : Type) :
    Option ActiveRequests × Option Error :=
  (none, none)

/-- Method `GetCloudBkupCatalog` of `backupNotSupported`. -/
def backupNotSupported.GetCloudBkupCatalog (cloudVol credID : String) :
    Option (List Nat) × Option Error :=
  (none, some ErrNotSupported)

/-- Method `GetCloudBkupMetadata` of `backupNotSupported`. -/
def backupNotSupported.GetCloudBkupMetadata (cloudVol credID : String) :
    Option (GoMap String) × Option Error :=
  (none, some ErrNotSupported)

/-- Method `CloudBackup` of `backupNotSupported`. -/
def backupNotSupported.CloudBackup (volumeID snapID credID : String)
    (fullBkup scheduled : Bool) : Option Error :=
  some ErrNotSupported

/-- Method `CloudRestore` of `backupNotSupported`. -/
def backupNotSupported.CloudRestore (dstVol cloudVol credID nodeID : String) :
    String × Option Error :=
  ("", some ErrNotSupported)

/-- Method `ListCloudSnaps` of `backupNotSupported`. -/
def backupNotSupported.ListCloudSnaps (CloudSnapInfo : Type) (srcVol clusterID credID : String)
    (all : Bool) : Option (List CloudSnapInfo) × Option Error :=
  (none, some ErrNotSupported)

/-- Method `DeleteCloudSnaps` of `backupNotSupported`. -/
def backupNotSupported.DeleteCloudSnaps (clusterID volstring credID : String) :
    Option Error :=
  some ErrNotSupported

/-- Method `CloudBackupStatusFromCache` of `backupNotSupported`. -/
def backupNotSupported.CloudBackupStatusFromCache (CloudSnapStatus : Type)
    (volumeID : String) (localOnly : Bool) : Option (GoMap CloudSnapStatus) × Option Error :=
  (none, some ErrNotSupported)

/-- Method `ChangeStateForCloudBackup` of `backupNotSupported`. -/
def backupNotSupported.ChangeStateForCloudBackup (volumeID reqState : String) :
    Option Error :=
  some ErrNotSupported

/-- Method `CreateCloudBackupSchedule` of `backupNotSupported`. -/
def backupNotSupported.CreateCloudBackupSchedule (schedInfo : Api.CloudsnapScheduleInfo) :
    String × Option Error :=
  ("", some ErrNotSupported)

/-- Method `UpdateCloudBackupSchedule` of `backupNotSupported`. -/
def backupNotSupported.UpdateCloudBackupSchedule (uuid : String)
    (schedInfo : Api.CloudsnapScheduleInfo) : Option Error :=
  some ErrNotSupported

/-- Method `ListCloudBackupSchedules` of `backupNotSupported`. -/
def backupNotSupported.ListCloudBackupSchedules :
    Option (GoMap Api.CloudsnapScheduleInfo) × Option Error :=
  (none, some ErrNotSupported)

/-- Method `DeleteCloudBackupSchedule` of `backupNotSupported`. -/
def backupNotSupported.DeleteCloudBackupSchedule (uuid : String) : Option Error :=
  some ErrNotSupported

end Volume

/-! ## The REST handlers of `api/server/volume.go` and `api/server/creds.go` -/

namespace Server

open Creds (Error Outcome World Env Json CredentialEntry GoMap)

/-- The constant `schedDriverPostFix` of `api/server/volume.go`. -/
def schedDriverPostFix : String := "-sched"

/-- The constant `http.StatusBadRequest`. -/
def StatusBadRequest : Nat := 400

/-- The constant `http.StatusInternalServerError`. -/
def StatusInternalServerError : Nat := 500

/-- The struct `volAPI` (its embedded `restBase` holds `version` and `name`). -/
structure volAPI where
  version : String
  name : String

/-- What the handlers read of an `*http.Request`: the `User-Agent` header as
    `r.Header.Get` returns it (`""` when absent), the variables of
    `mux.Vars(r)` (`vars k` is the value read, `""` when the key is absent;
    `hasVar k` is the presence flag of `v, ok := vars[k]`) and the query
    values of `r.URL.Query()`. -/
structure Request where
  userAgent : String
  vars : String → String
  hasVar : String → Bool := fun _ => true
  query : GoMap (List String) := ∅

/-- What a handler leaves on the `http.ResponseWriter`: the page of
    `notFound`, the error of `sendError` (message and status code), or a
    JSON-encoded body. -/
inductive Response (α : Type) where
  | notFound
  | error (msg : String) (code : Nat)
  | json (body : α)
  deriving DecidableEq

/-- Splitting of a character list at every occurrence of `sep`. -/
def splitChars (sep : Char) : List Char → List (List Char)
  | [] => [[]]
  | c :: cs =>
    if c = sep then [] :: splitChars sep cs
    else
      match splitChars sep cs with
      | [] => [[c]]
      | seg :: segs => (c :: seg) :: segs

/-- Model of `strings.Split(s, sep)` for a separator of one character. -/
def stringsSplit (s : String) (sep : Char) : List String :=
  (splitChars sep s.data).map String.mk

/-- Method `getVolDriver` of `volAPI`.  `Get` is `volumedrivers.Get`, the
    lookup of the driver registry. -/
def volAPI.getVolDriver {D : Type} (Get : String → Except Error D) (vd : volAPI)
    (r : Request) : Except Error D :=
  let rest : Except Error D :=
    match Get (vd.name ++ schedDriverPostFix) with
    | .ok d => .ok d
    | .error _ => Get vd.name
  let userAgent := r.userAgent
  if userAgent.length > 0 then
    match stringsSplit userAgent '/' with
    | c :: _ =>
      match Get c with
      | .ok d => .ok d
      | .error _ => rest
    | [] => rest
  else rest

/-- Model of `responseStatus` of `api/server/volume.go`. -/
def responseStatus (err : Option Error) : String :=
  match err with
  | none => ""
  | some e => e

/-- Calls a handler makes on the resolved driver. -/
inductive DriverCall where
  | CreateCloudBackupSchedule (schedInfo : Api.CloudsnapScheduleInfo)
  | UpdateCloudBackupSchedule (uuid : String) (schedInfo : Api.CloudsnapScheduleInfo)
  | ListCloudBackupSchedules
  | DeleteCloudBackupSchedule (uuid : String)
  | CloudBackupStatusFromCache (volumeID : String) (localOnly : Bool)
  | Stats (volumeID : String) (cumulative : Bool)
  | SnapEnumerate (ids : Option (List String)) (labels : Option (GoMap String))
  deriving DecidableEq

/-- The methods of `volume.VolumeDriver` that the schedule handlers call. -/
structure VolumeDriver where
  CreateCloudBackupSchedule : Api.CloudsnapScheduleInfo → String × Option Error
  UpdateCloudBackupSchedule : String → Api.CloudsnapScheduleInfo → Option Error
  ListCloudBackupSchedules : Option (GoMap Api.CloudsnapScheduleInfo) × Option Error
  DeleteCloudBackupSchedule : String → Option Error

/-- The schedule methods of a `volume.VolumeDriver` with the records that the
    driver keeps made explicit as a state `S`: the listing reads the records,
    the other methods also return the records they leave. -/
structure ScheduleDriver (S : Type) where
  CreateCloudBackupSchedule : S → Api.CloudsnapScheduleInfo → S × (String × Option Error)
  UpdateCloudBackupSchedule : S → String → Api.CloudsnapScheduleInfo → S × Option Error
  ListCloudBackupSchedules : S → Option (GoMap Api.CloudsnapScheduleInfo) × Option Error
  DeleteCloudBackupSchedule : S → String → S × Option Error

/-- The driver as a handler calls it while its records are `s`. -/
def ScheduleDriver.view {S : Type} (b : ScheduleDriver S) (s : S) : VolumeDriver :=
  { CreateCloudBackupSchedule := fun schedInfo => (b.CreateCloudBackupSchedule s schedInfo).2,
    UpdateCloudBackupSchedule := fun uuid schedInfo =>
      (b.UpdateCloudBackupSchedule s uuid schedInfo).2,
    ListCloudBackupSchedules := b.ListCloudBackupSchedules s,
    DeleteCloudBackupSchedule := fun uuid => (b.DeleteCloudBackupSchedule s uuid).2 }

/-- The records of the driver after one call made on it. -/
def ScheduleDriver.step {S : Type} (b : ScheduleDriver S) (s : S) : DriverCall → S
  | .CreateCloudBackupSchedule schedInfo => (b.CreateCloudBackupSchedule s schedInfo).1
  | .UpdateCloudBackupSchedule uuid schedInfo =>
    (b.UpdateCloudBackupSchedule s uuid schedInfo).1
  | .DeleteCloudBackupSchedule uuid => (b.DeleteCloudBackupSchedule s uuid).1
  | _ => s

/-- The records of the driver after the calls that a handler made, in order. -/
def ScheduleDriver.after {S : Type} (b : ScheduleDriver S) (s : S)
    (calls : List DriverCall) : S :=
  calls.foldl b.step s

/-- The method of `volume.VolumeDriver` that the status handler calls;
    `Status` stands for `api.CloudSnapStatus`. -/
structure BackupStatusDriver (Status : Type) where
  CloudBackupStatusFromCache : String → Bool → Option (GoMap Status) × Option Error

/-- The method of `volume.VolumeDriver` that the stats handler calls; `Stats`
    stands for `api.Stats`. -/
structure StatsDriver (Stats : Type) where
  Stats : String → Bool → Option Stats × Option Error

/-- The method of `volume.VolumeDriver` that the snapshot enumeration calls;
    `Vol` stands for `api.Volume`. -/
structure SnapshotDriver (Vol : Type) where
  SnapEnumerate : Option (List String) → Option (GoMap String) →
    Option (List Vol) × Option Error

/-- Model of `strconv.ParseBool`: the value (false on failure) and the error. -/
def strconvParseBool (str : String) : Bool × Option Error :=
  if str = "1" ∨ str = "t" ∨ str = "T" ∨ str = "true" ∨ str = "TRUE" ∨ str = "True" then
    (true, none)
  else if str = "0" ∨ str = "f" ∨ str = "F" ∨ str = "false" ∨ str = "FALSE"
      ∨ str = "False" then
    (false, none)
  else (false, some ("strconv.ParseBool: parsing \"" ++ str ++ "\": invalid syntax"))

/-- Value of a digit byte as `strconv.ParseUint` reads it: `0`..`9` count as
    themselves and the letters, in either case, from 10 on (the library
    lowers a byte with `c | 0x20`); every other byte has none. -/
def digitValue (c : Char) : Option Nat :=
  let n := c.toNat
  if 48 ≤ n ∧ n ≤ 57 then some (n - 48)
  else if 97 ≤ n ∧ n ≤ 122 then some (n - 97 + 10)
  else if 65 ≤ n ∧ n ≤ 90 then some (n - 65 + 10)
  else none

/-- The loop of `underscoreOK` of package `strconv`.  `saw` is the kind of the
    last byte seen: `^` at the start, `0` after a digit or the base prefix,
    `_` after an underscore, `!` after anything else. -/
def underscoreOKFrom (hex : Bool) : Char → List Char → Bool
  | saw, [] => saw != '_'
  | saw, c :: cs =>
    if (48 ≤ c.toNat ∧ c.toNat ≤ 57)
        ∨ (hex = true ∧ ((97 ≤ c.toNat ∧ c.toNat ≤ 102) ∨ (65 ≤ c.toNat ∧ c.toNat ≤ 70))) then
      underscoreOKFrom hex '0' cs
    else if c = '_' then
      if saw ≠ '0' then false else underscoreOKFrom hex '_' cs
    else if saw = '_' then false
    else underscoreOKFrom hex '!' cs

/-- Model of `underscoreOK` of package `strconv`: underscores may only stand
    between digits, or between the base prefix and a digit. -/
def underscoreOK (s : String) : Bool :=
  let body : List Char :=
    match s.data with
    | [] => []
    | c :: cs => if c = '-' ∨ c = '+' then cs else c :: cs
  match body with
  | c0 :: c1 :: rest =>
    if c0 = '0' ∧ (c1 = 'b' ∨ c1 = 'B' ∨ c1 = 'o' ∨ c1 = 'O' ∨ c1 = 'x' ∨ c1 = 'X') then
      underscoreOKFrom (decide (c1 = 'x' ∨ c1 = 'X')) '0' rest
    else underscoreOKFrom false '^' body
  | _ => underscoreOKFrom false '^' body

/-- The digit loop of `strconv.ParseUint` for a 64-bit result, from the value
    `n` read so far: the number, or the text of the error met first.  With
    `base0` an underscore is skipped. -/
def parseUintDigits (base : Nat) (base0 : Bool) : Nat → List Char → Except String Nat
  | n, [] => .ok n
  | n, c :: cs =>
    if c = '_' ∧ base0 = true then parseUintDigits base base0 n cs
    else
      match digitValue c with
      | none => .error "invalid syntax"
      | some d =>
        if d ≥ base then .error "invalid syntax"
        else if n ≥ (2 ^ 64 - 1) / base + 1 then .error "value out of range"
        else if n * base + d > 2 ^ 64 - 1 then .error "value out of range"
        else parseUintDigits base base0 (n * base + d) cs

/-- Model of `strconv.ParseUint(s, 0, 64)`: base 0 reads the base off the
    prefix (`0b` 2, `0o` 8, `0x` 16, a leading `0` 8, otherwise 10) and allows
    underscores where `underscoreOK` does; the value is an unsigned 64-bit
    number. -/
def strconvParseUint (s : String) : Except Error Nat :=
  let fault (why : String) : Except Error Nat :=
    .error ("strconv.ParseUint: parsing \"" ++ s ++ "\": " ++ why)
  match s.data with
  | [] => fault "invalid syntax"
  | c0 :: rest0 =>
    let baseDigits : Nat × List Char :=
      if c0 = '0' then
        match rest0 with
        | c1 :: c2 :: rest =>
          if c1 = 'b' ∨ c1 = 'B' then (2, c2 :: rest)
          else if c1 = 'o' ∨ c1 = 'O' then (8, c2 :: rest)
          else if c1 = 'x' ∨ c1 = 'X' then (16, c2 :: rest)
          else (8, rest0)
        | _ => (8, rest0)
      else (10, c0 :: rest0)
    match parseUintDigits baseDigits.1 true 0 baseDigits.2 with
    | .error why => fault why
    | .ok n =>
      if baseDigits.2.contains '_' ∧ underscoreOK s = false then fault "invalid syntax"
      else .ok n

/-- Method `cloudsnapCreateSched` of `volAPI`.  `ParseUint s` is
    `strconv.ParseUint(s, 0, 64)`.  Returns the calls made on the driver and
    the response written. -/
def volAPI.cloudsnapCreateSched (Get : String → Except Error VolumeDriver)
    (ParseUint : String → Except Error Nat) (vd : volAPI) (r : Request) :
    List DriverCall × Response String :=
  let vars := r.vars
  let vol := vars "volumeid"
  let maxbackups := vars "maxbackups"
  let credID := vars "credid"
  let sched := vars "sched"
  match vd.getVolDriver Get r with
  | .error _ => ([], .notFound)
  | .ok d =>
    match (if maxbackups ≠ "" then ParseUint maxbackups else .ok 0) with
    | .error err => ([], .error ("Failed to parse maxbackups: " ++ err) StatusBadRequest)
    | .ok maxBackups =>
      let newSched : Api.CloudsnapScheduleInfo :=
        { VolumeID := vol, Schedule := sched, CredID := credID, MaxBackups := maxBackups }
      match d.CreateCloudBackupSchedule newSched with
      | (_, some err) =>
        ([.CreateCloudBackupSchedule newSched],
          .error ("Failed to created backup schedule: " ++ err) StatusBadRequest)
      | (uuid, none) => ([.CreateCloudBackupSchedule newSched], .json uuid)

/-- Method `cloudsnapUpdateSched` of `volAPI`. -/
def volAPI.cloudsnapUpdateSched (Get : String → Except Error VolumeDriver)
    (ParseUint : String → Except Error Nat) (vd : volAPI) (r : Request) :
    List DriverCall × Response Api.VolumeResponse :=
  let vars := r.vars
  let uuid := vars "uuid"
  let maxbackups := vars "maxbackups"
  let credID := vars "credid"
  let sched := vars "sched"
  match vd.getVolDriver Get r with
  | .error _ => ([], .notFound)
  | .ok d =>
    match (if maxbackups ≠ "" then ParseUint maxbackups else .ok 0) with
    | .error err =>
      ([], .error ("Failed to take parse maxbackups: " ++ err) StatusBadRequest)
    | .ok maxBackups =>
      let newSched : Api.CloudsnapScheduleInfo :=
        { VolumeID := "", Schedule := sched, CredID := credID, MaxBackups := maxBackups }
      let err := d.UpdateCloudBackupSchedule uuid newSched
      ([.UpdateCloudBackupSchedule uuid newSched],
        .json { Error := if err.isSome then responseStatus err else "" })

/-- Method `cloudsnapEnumerateSched` of `volAPI`. -/
def volAPI.cloudsnapEnumerateSched (Get : String → Except Error VolumeDriver)
    (vd : volAPI) (r : Request) :
    List DriverCall × Response (Option (GoMap Api.CloudsnapScheduleInfo)) :=
  match vd.getVolDriver Get r with
  | .error _ => ([], .notFound)
  | .ok d =>
    match d.ListCloudBackupSchedules with
    | (_, some err) =>
      ([.ListCloudBackupSchedules],
        .error ("Failed to enumerate schedules: " ++ err) StatusBadRequest)
    | (schedules, none) => ([.ListCloudBackupSchedules], .json schedules)

/-- Method `cloudsnapDeleteSched` of `volAPI`. -/
def volAPI.cloudsnapDeleteSched (Get : String → Except Error VolumeDriver)
    (vd : volAPI) (r : Request) : List DriverCall × Response Api.VolumeResponse :=
  let vars := r.vars
  let uuid := vars "uuid"
  match vd.getVolDriver Get r with
  | .error _ => ([], .notFound)
  | .ok d =>
    let err := d.DeleteCloudBackupSchedule uuid
    ([.DeleteCloudBackupSchedule uuid],
      .json { Error := if err.isSome then responseStatus err else "" })

/-- Method `cloudsnapStatus` of `volAPI`. -/
def volAPI.cloudsnapStatus {Status : Type}
    (Get : String → Except Error (BackupStatusDriver Status)) (vd : volAPI) (r : Request) :
    List DriverCall × Response (Option (GoMap Status)) :=
  let vars := r.vars
  let srcVol := vars "vol"
  let localVar := vars "local"
  match vd.getVolDriver Get r with
  | .error _ => ([], .notFound)
  | .ok d =>
    match strconvParseBool localVar with
    | (_, some err) => ([], .error ("Failed to take backup: " ++ err) StatusBadRequest)
    | (loc, none) =>
      match d.CloudBackupStatusFromCache srcVol loc with
      | (_, some err) =>
        ([.CloudBackupStatusFromCache srcVol loc],
          .error ("Failed to take backup: " ++ err) StatusBadRequest)
      | (status, none) => ([.CloudBackupStatusFromCache srcVol loc], .json status)

/-- Go `err.Error()`: a method call on a nil `error` panics. -/
def errError (err : Option Error) : Outcome String :=
  match err with
  | some e => .returned e
  | none => .panicked "runtime error: invalid memory address or nil pointer dereference"

/-- Method `parseID` of `volAPI`. -/
def volAPI.parseID (_vd : volAPI) (r : Request) : String × Option Error :=
  if r.hasVar "id" then (r.vars "id", none) else ("", some "could not parse snap ID")

/-- Model of `strings.Join(a, sep)`. -/
def stringsJoin : List String → String → String
  | [], _ => ""
  | [x], _ => x
  | x :: y :: rest, sep => x ++ sep ++ stringsJoin (y :: rest) sep

/-- Method `stats` of `volAPI`.  `OptCumulative` is the constant
    `api.OptCumulative`.  Inside the branch taken when the option is present,
    `ok` is true. -/
def volAPI.stats {Stats : Type} (Get : String → Except Error (StatsDriver Stats))
    (OptCumulative : String) (vd : volAPI) (r : Request) :
    Outcome (List DriverCall × Response (Option Stats)) :=
  match vd.parseID r with
  | (_, some err) =>
    .returned ([], .error ("Failed to parse volumeID: " ++ err) StatusBadRequest)
  | (volumeID, none) =>
    let params := r.query
    let rest (cumulative : Bool) : Outcome (List DriverCall × Response (Option Stats)) :=
      match vd.getVolDriver Get r with
      | .error _ => .returned ([], .notFound)
      | .ok d =>
        match d.Stats volumeID cumulative with
        | (_, some err) =>
          .returned ([.Stats volumeID cumulative],
            .error ("Failed to get stats: " ++ err) StatusBadRequest)
        | (stats, none) => .returned ([.Stats volumeID cumulative], .json stats)
    match params.lookup OptCumulative with
    | some opt =>
      let ok := true
      match strconvParseBool (stringsJoin opt "") with
      | (boolValue, err) =>
        if !ok then
          match errError err with
          | .panicked msg => .panicked msg
          | .returned e =>
            .returned ([],
              .error ("Failed to parse " ++ OptCumulative ++ " option: " ++ e)
                StatusBadRequest)
        else rest boolValue
    | none => rest true

/-- The loop `for i, s := range v \x7b ids[i] = string(s) \x7d`, started at
    index `i`; an index beyond the slice panics. -/
def fillIds : List String → Nat → List String → Outcome (List String)
  | ids, _, [] => .returned ids
  | ids, i, s :: rest =>
    if i < ids.length then fillIds (ids.set i s) (i + 1) rest
    else .panicked "runtime error: index out of range"

/-- Method `snapEnumerate` of `volAPI`.  `OptLabel` and `OptVolumeID` are the
    constants of package `api`; `Unmarshal` is `json.Unmarshal` into the nil
    map `labels`.  Returns the driver calls and the responses written, in
    order (a label that fails to parse writes an error and goes on). -/
def volAPI.snapEnumerate {Vol : Type} (Get : String → Except Error (SnapshotDriver Vol))
    (OptLabel OptVolumeID : String)
    (Unmarshal : String → Option (GoMap String) × Option Error) (vd : volAPI)
    (r : Request) : Outcome (List DriverCall × List (Response (Option (List Vol)))) :=
  match vd.getVolDriver Get r with
  | .error _ => .returned ([], [.notFound])
  | .ok d =>
    let params := r.query
    let labelled : Outcome (Option (GoMap String) × List (Response (Option (List Vol)))) :=
      match params.lookup OptLabel with
      | some v =>
        match v with
        | [] => .panicked "runtime error: index out of range"
        | v0 :: _ =>
          match Unmarshal v0 with
          | (labels, some err) =>
            .returned (labels,
              [.error ("Failed to parse parse VolumeLabels: " ++ err) StatusBadRequest])
          | (labels, none) => .returned (labels, [])
      | none => .returned (none, [])
    match labelled with
    | .panicked msg => .panicked msg
    | .returned (labels, written) =>
      let filled : Outcome (Option (List String)) :=
        match params.lookup OptVolumeID with
        | some v =>
          match fillIds (List.replicate params.keys.card "") 0 v with
          | .panicked msg => .panicked msg
          | .returned ids => .returned (some ids)
        | none => .returned none
      match filled with
      | .panicked msg => .panicked msg
      | .returned ids =>
        match d.SnapEnumerate ids labels with
        | (_, some err) =>
          .returned ([.SnapEnumerate ids labels],
            written ++ [.error ("Failed to enumerate snaps: " ++ err) StatusBadRequest])
        | (snaps, none) => .returned ([.SnapEnumerate ids labels], written ++ [.json snaps])

/-- A Go error as `processErrorForVolSetResponse` sees it: whether its dynamic
    type is `*errors.ErrNotFound`, and its message. -/
structure TypedError where
  isErrNotFound : Bool
  msg : String
  deriving DecidableEq

/-- Model of `processErrorForVolSetResponse`; returns the response that `resp`
    points to after the call (`none` for a nil pointer).  `emptyVolume` is
    `api.Volume` with all fields zero. -/
def processErrorForVolSetResponse {Vol : Type} (emptyVolume : Vol)
    (action : Option Api.VolumeStateAction) (err : Option TypedError)
    (resp : Option (Api.VolumeSetResponse Vol)) : Option (Api.VolumeSetResponse Vol) :=
  match err, resp with
  | none, _ => resp
  | _, none => resp
  | some e, some rsp =>
    if (match action with
        | some a =>
          decide (a.Mount = Api.VolumeActionParam.VOLUME_ACTION_PARAM_OFF)
            || decide (a.Attach = Api.VolumeActionParam.VOLUME_ACTION_PARAM_OFF)
        | none => false) then
      if e.isErrNotFound then
        some { rsp with VolumeResponse := some { Error := "" }, Volume := some emptyVolume }
      else
        some { rsp with VolumeResponse := some { Error := e.msg } }
    else
      some { rsp with VolumeResponse := some { Error := e.msg } }

/-- Model of `strings.ToLower`.  A rune up to `unicode.MaxASCII` is lowered by
    the rule of the library (`A`..`Z` move up by 32, every other rune stays);
    `unicodeToLower` is `unicode.ToLower` on the runes above it, whose case
    tables belong to the Go library. -/
def stringsToLower (unicodeToLower : Char → Char) (s : String) : String :=
  String.mk (s.data.map fun c => if c.toNat < 128 then c.toLower else unicodeToLower c)

/-- Value of a run of decimal digits; none when the run is empty or holds
    another character. -/
def parseDigits : List Char → Option Nat
  | [] => none
  | c :: cs =>
    (c :: cs).foldl
      (fun acc d =>
        match acc with
        | some n => if d.isDigit then some (10 * n + (d.toNat - 48)) else none
        | none => none)
      (some 0)

/-- Model of `strconv.ParseInt(s, 10, 64)`: an optional sign and decimal
    digits, within the range of `int64`. -/
def strconvParseInt (s : String) : Except Error Int :=
  match s.data with
  | [] => .error ("strconv.ParseInt: parsing \"" ++ s ++ "\": invalid syntax")
  | c :: cs =>
    let neg := decide (c = '-')
    let digits := if c = '+' ∨ c = '-' then cs else c :: cs
    match parseDigits digits with
    | none => .error ("strconv.ParseInt: parsing \"" ++ s ++ "\": invalid syntax")
    | some un =>
      if (!neg && decide (un ≥ 2 ^ 63)) || (neg && decide (un > 2 ^ 63)) then
        .error ("strconv.ParseInt: parsing \"" ++ s ++ "\": value out of range")
      else .ok (if neg then -(un : Int) else (un : Int))

/-- Go conversion of an `int64` to `int32`: the low 32 bits, signed. -/
def int32 (x : Int) : Int :=
  (x + 2 ^ 31) % 2 ^ 32 - 2 ^ 31

/-- Model of `handleResourceType` of `api/server/cluster.go`; the resource
    type is given by its number (`api.ResourceType` is an `int32`), and
    `unicodeToLower` is the library function `unicode.ToLower` that
    `strings.ToLower` applies to the runes outside ASCII. -/
def handleResourceType (unicodeToLower : Char → Char) (resource : String) :
    Int × Option Error :=
  let resource := stringsToLower unicodeToLower resource
  if resource = "volume" then (Api.ResourceType_RESOURCE_TYPE_VOLUME, none)
  else if resource = "node" then (Api.ResourceType_RESOURCE_TYPE_NODE, none)
  else if resource = "cluster" then (Api.ResourceType_RESOURCE_TYPE_CLUSTER, none)
  else if resource = "drive" then (Api.ResourceType_RESOURCE_TYPE_DRIVE, none)
  else
    match strconvParseInt resource with
    | .ok resourceType =>
      if (Api.ResourceType_name (int32 resourceType)).isSome then
        (int32 resourceType, none)
      else (Api.ResourceType_RESOURCE_TYPE_NONE, some "Invalid resource type")
    | .error _ => (Api.ResourceType_RESOURCE_TYPE_NONE, some "Invalid resource type")

/-- The struct `Route` of package `server`: verb, path and handler. -/
structure Route (H : Type) where
  verb : String
  path : String
  fn : H
  deriving DecidableEq

/-- The handlers of `credAPI`. -/
inductive credHandler where
  | list
  | create
  | delete
  | update
  deriving DecidableEq

/-- The handlers of `volAPI`. -/
inductive volHandler where
  | versions
  | create
  | volumeSet
  | enumerate
  | inspect
  | delete
  | stats
  | usedsize
  | requests
  | snap
  | snapEnumerate
  | restore
  | cloudsnapBackupCatalog
  | cloudsnapBackupMeta
  | cloudsnapBackup
  | cloudsnapRestore
  | cloudsnapEnumerate
  | cloudsnapDelete
  | cloudsnapStatus
  | cloudsnapChangeState
  | cloudsnapCreateSched
  | cloudsnapUpdateSched
  | cloudsnapEnumerateSched
  | cloudsnapDeleteSched
  deriving DecidableEq

/-- Model of `credVersion` of `api/server/creds.go`. -/
def credVersion (route version : String) : String :=
  "/" ++ version ++ "/" ++ route

/-- Model of `credPath` of `api/server/creds.go`. -/
def credPath (route version : String) : String :=
  credVersion ("creds" ++ route) version

/-- Method `Routes` of `credAPI`. -/
def credAPI.Routes : List (Route credHandler) :=
  [ { verb := "GET", path := credPath "/listcreds" Creds.APIVersion, fn := .list },
    { verb := "PUT", path := credPath "/addcreds" Creds.APIVersion, fn := .create },
    { verb := "DELETE", path := credPath "/deletecreds" Creds.APIVersion, fn := .delete },
    { verb := "POST", path := credPath "/updatecreds" Creds.APIVersion, fn := .update } ]

/-- Model of `volVersion` of `api/server/volume.go`. -/
def volVersion (route version : String) : String :=
  if version = "" then "/" ++ route else "/" ++ version ++ "/" ++ route

/-- The constants of packages `api` and `volume` that the volume routes use. -/
structure PathConsts where
  OsdVolumePath : String
  OsdSnapshotPath : String
  OsdCloudSnapshotPath : String
  APIVersion : String

/-- Model of `volPath` of `api/server/volume.go`. -/
def volPath (k : PathConsts) (route version : String) : String :=
  volVersion (k.OsdVolumePath ++ route) version

/-- Model of `snapPath` of `api/server/volume.go`. -/
def snapPath (k : PathConsts) (route version : String) : String :=
  volVersion (k.OsdSnapshotPath ++ route) version

/-- Model of `cloudSnapPath` of `api/server/volume.go`. -/
def cloudSnapPath (k : PathConsts) (route version : String) : String :=
  volVersion (k.OsdCloudSnapshotPath ++ route) version

/-- Method `Routes` of `volAPI`. -/
def volAPI.Routes (k : PathConsts) : List (Route volHandler) :=
  [ { verb := "GET", path := "/" ++ k.OsdVolumePath ++ "/versions", fn := .versions },
    { verb := "POST", path := volPath k "" k.APIVersion, fn := .create },
    { verb := "PUT", path := volPath k "/\x7bid\x7d" k.APIVersion, fn := .volumeSet },
    { verb := "GET", path := volPath k "" k.APIVersion, fn := .enumerate },
    { verb := "GET", path := volPath k "/\x7bid\x7d" k.APIVersion, fn := .inspect },
    { verb := "DELETE", path := volPath k "/\x7bid\x7d" k.APIVersion, fn := .delete },
    { verb := "GET", path := volPath k "/stats" k.APIVersion, fn := .stats },
    { verb := "GET", path := volPath k "/stats/\x7bid\x7d" k.APIVersion, fn := .stats },
    { verb := "GET", path := volPath k "/usedsize" k.APIVersion, fn := .usedsize },
    { verb := "GET", path := volPath k "/usedsize/\x7bid\x7d" k.APIVersion, fn := .usedsize },
    { verb := "GET", path := volPath k "/requests" k.APIVersion, fn := .requests },
    { verb := "GET", path := volPath k "/requests/\x7bid\x7d" k.APIVersion, fn := .requests },
    { verb := "POST", path := snapPath k "" k.APIVersion, fn := .snap },
    { verb := "GET", path := snapPath k "" k.APIVersion, fn := .snapEnumerate },
    { verb := "POST", path := snapPath k "/restore/\x7bid\x7d" k.APIVersion, fn := .restore },
    { verb := "GET", path := cloudSnapPath k "/getbkupcatalog" k.APIVersion,
      fn := .cloudsnapBackupCatalog },
    { verb := "GET", path := cloudSnapPath k "/getbkupmeta" k.APIVersion,
      fn := .cloudsnapBackupMeta },
    { verb := "POST", path := cloudSnapPath k "/backup" k.APIVersion, fn := .cloudsnapBackup },
    { verb := "POST", path := cloudSnapPath k "/restore" k.APIVersion,
      fn := .cloudsnapRestore },
    { verb := "GET", path := cloudSnapPath k "/listcloudsnaps" k.APIVersion,
      fn := .cloudsnapEnumerate },
    { verb := "DELETE", path := cloudSnapPath k "/deletecloudsnaps" k.APIVersion,
      fn := .cloudsnapDelete },
    { verb := "GET", path := cloudSnapPath k "/cloudsnapstatus" k.APIVersion,
      fn := .cloudsnapStatus },
    { verb := "POST", path := cloudSnapPath k "/changestate" k.APIVersion,
      fn := .cloudsnapChangeState },
    { verb := "PUT", path := cloudSnapPath k "/createcloudsnapsched" k.APIVersion,
      fn := .cloudsnapCreateSched },
    { verb := "POST", path := cloudSnapPath k "/updatecloudsnapsched" k.APIVersion,
      fn := .cloudsnapUpdateSched },
    { verb := "GET", path := cloudSnapPath k "/listcloudsnapsched" k.APIVersion,
      fn := .cloudsnapEnumerateSched },
    { verb := "DELETE", path := cloudSnapPath k "/deletecloudsnapsched" k.APIVersion,
      fn := .cloudsnapDeleteSched } ]

/-- Whether a route path names the variable `k` in braces. -/
def declaresVar (path k : String) : Bool :=
  Creds.stringsContains path ("\x7b" ++ k ++ "\x7d")

/-- Modelled from the spec: the router of `api/server/server.go`, which is not
    among the sources.  A request that reaches its handler through `route`
    carries as `mux.Vars` the variables that the route path names in braces,
    bound to the matching parts of the URL path (`bound`); the query string
    gives no variable. -/
def routeRequest {H : Type} (route : Route H) (userAgent : String)
    (bound : String → String) (query : GoMap (List String)) : Request :=
  { userAgent := userAgent,
    vars := fun k => if declaresVar route.path k then bound k else "",
    hasVar := fun k => declaresVar route.path k,
    query := query }

/-- Model of `creds.Inst()` of `creds/creds.go`: the manager, or
    `errCredsNotInitialized` when `inst` is nil. -/
def credsInst (initialized : Bool) : Option Error :=
  if initialized then none else some "openstorage.creds: not initialized"

section CredHandlers

variable {V : Type}

/-- Method `create` of `credAPI`.  `body` is what
    `json.NewDecoder(r.Body).Decode(&credential)` yields. -/
def credAPI.create (J : Json V) (initialized : Bool) (w : World V) (env : Env)
    (body : Except Error (CredentialEntry V)) :
    World V × Outcome (Response Api.CredentialResponse) :=
  match body with
  | .error err => (w, .returned (.error err StatusBadRequest))
  | .ok credential =>
    match credsInst initialized with
    | some err => (w, .returned (.error err StatusInternalServerError))
    | none =>
      match Creds.CredentialManager.Create J w env credential with
      | (w1, .panicked msg) => (w1, .panicked msg)
      | (w1, .returned (some err)) => (w1, .returned (.error err StatusInternalServerError))
      | (w1, .returned none) =>
        match errError none with
        | .panicked msg => (w1, .panicked msg)
        | .returned e => (w1, .returned (.json { Error := e }))

/-- Method `update` of `credAPI`. -/
def credAPI.update (J : Json V) (initialized : Bool) (w : World V) (env : Env)
    (r : Request) (body : Except Error (CredentialEntry V)) :
    World V × Outcome (Response Api.CredentialResponse) :=
  let uuid := r.vars "uuid"
  match body with
  | .error err => (w, .returned (.error err StatusBadRequest))
  | .ok credential =>
    match credsInst initialized with
    | some err => (w, .returned (.error err StatusInternalServerError))
    | none =>
      match Creds.CredentialManager.Update J w env uuid credential with
      | (w1, .panicked msg) => (w1, .panicked msg)
      | (w1, .returned (some err)) => (w1, .returned (.error err StatusInternalServerError))
      | (w1, .returned none) =>
        match errError none with
        | .panicked msg => (w1, .panicked msg)
        | .returned e => (w1, .returned (.json { Error := e }))

/-- Method `delete` of `credAPI`. -/
def credAPI.delete (J : Json V) (initialized : Bool) (w : World V) (env : Env)
    (r : Request) : World V × Outcome (Response Api.CredentialResponse) :=
  let uuid := r.vars "uuid"
  match credsInst initialized with
  | some err => (w, .returned (.error err StatusInternalServerError))
  | none =>
    match Creds.CredentialManager.Delete J w env uuid with
    | (w1, .panicked msg) => (w1, .panicked msg)
    | (w1, .returned (some err)) => (w1, .returned (.error err StatusInternalServerError))
    | (w1, .returned none) =>
      match errError none with
      | .panicked msg => (w1, .panicked msg)
      | .returned e => (w1, .returned (.json { Error := e }))

end CredHandlers

section Harness

variable {D : Type}

/-- The caller identity that `getVolDriver` looks up: the first segment of a
    non-empty `User-Agent`; none when the header is empty. -/
def callerIdentity (userAgent : String) : Option String :=
  if userAgent.length > 0 then (stringsSplit userAgent '/').head? else none

/-- What happens to the driver registry and to the resolver over time. -/
inductive RegistryEvent (D : Type) where
  | register (name : String) (d : D)
  | unregister (name : String) (err : Error)
  | resolve (vd : volAPI) (r : Request)

/-- Whether an event is a call of `getVolDriver`. -/
def RegistryEvent.isResolve : RegistryEvent D → Bool
  | .resolve _ _ => true
  | _ => false

/-- The registry lookup after a series of events; `getVolDriver` only reads
    the registry. -/
def registryAfter (Get : String → Except Error D) :
    List (RegistryEvent D) → (String → Except Error D)
  | [] => Get
  | .register name d :: es => registryAfter (Function.update Get name (.ok d)) es
  | .unregister name err :: es => registryAfter (Function.update Get name (.error err)) es
  | .resolve _ _ :: es => registryAfter Get es

/-- The results of the `getVolDriver` calls of a series of events, in order. -/
def resolutions (Get : String → Except Error D) :
    List (RegistryEvent D) → List (Except Error D)
  | [] => []
  | .register name d :: es => resolutions (Function.update Get name (.ok d)) es
  | .unregister name err :: es => resolutions (Function.update Get name (.error err)) es
  | .resolve vd r :: es => vd.getVolDriver Get r :: resolutions Get es

/-- A registry with drivers `1`, `2`, `3` under `foo`, `bar-sched`, `bar`. -/
def sampleGet (name : String) : Except Error Nat :=
  if name = "foo" then .ok 1
  else if name = "bar-sched" then .ok 2
  else if name = "bar" then .ok 3
  else .error "Driver not found"

/-- A registry holding only driver `3` under `bar`. -/
def sampleGetBare (name : String) : Except Error Nat :=
  if name = "bar" then .ok 3 else .error "Driver not found"

/-- The volume API serving driver name `bar`. -/
def sampleApi : volAPI := { version := "v1", name := "bar" }

/-- A driver that accepts every schedule. -/
def sampleDriver : VolumeDriver :=
  { CreateCloudBackupSchedule := fun _ => ("sched-1", none),
    UpdateCloudBackupSchedule := fun _ _ => none,
    ListCloudBackupSchedules := (some ∅, none),
    DeleteCloudBackupSchedule := fun _ => none }

/-- A driver that declines the backup capability: its schedule methods are
    those of `backupNotSupported`. -/
def notSupportedDriver : VolumeDriver :=
  { CreateCloudBackupSchedule := Volume.backupNotSupported.CreateCloudBackupSchedule,
    UpdateCloudBackupSchedule := Volume.backupNotSupported.UpdateCloudBackupSchedule,
    ListCloudBackupSchedules := Volume.backupNotSupported.ListCloudBackupSchedules,
    DeleteCloudBackupSchedule := Volume.backupNotSupported.DeleteCloudBackupSchedule }

/-- A registry holding `notSupportedDriver` under `bar`. -/
def notSupportedDrivers (name : String) : Except Error VolumeDriver :=
  if name = "bar" then .ok notSupportedDriver else .error "Driver not found"

/-- A registry whose driver `bar` has an empty status cache. -/
def emptyCacheDrivers (name : String) : Except Error (BackupStatusDriver Unit) :=
  if name = "bar" then .ok { CloudBackupStatusFromCache := fun _ _ => (some ∅, none) }
  else .error "Driver not found"

/-- A registry holding `sampleDriver` under `bar`. -/
def sampleDrivers (name : String) : Except Error VolumeDriver :=
  if name = "bar" then .ok sampleDriver else .error "Driver not found"

/-- A registry whose driver `bar` answers every stats call with the stats
    value `0`. -/
def sampleStatsDrivers (name : String) : Except Error (StatsDriver Nat) :=
  if name = "bar" then .ok { Stats := fun _ _ => (some 0, none) }
  else .error "Driver not found"

/-- A stats request for volume `vol1` arriving through the route
    `/stats/\x7bid\x7d`, with the given query values. -/
def sampleStatsRequest (query : GoMap (List String)) : Request :=
  routeRequest
    ({ verb := "GET", path := "/v1/osd-volumes/stats/\x7bid\x7d", fn := volHandler.stats } :
      Route volHandler)
    "" (fun _ => "vol1") query

/-- A registry whose driver `bar` has no snapshot. -/
def sampleSnapDrivers (name : String) : Except Error (SnapshotDriver Nat) :=
  if name = "bar" then .ok { SnapEnumerate := fun _ _ => (some [], none) }
  else .error "Driver not found"

/-- A decoder of label texts that knows the empty object only. -/
def sampleUnmarshalLabels (data : String) : Option (GoMap String) × Option Error :=
  if data = "\x7b\x7d" then (some ∅, none) else (none, some "invalid character")

/-- A request carrying the given query values and no `User-Agent`. -/
def sampleQueryRequest (query : GoMap (List String)) : Request :=
  { userAgent := "", vars := fun _ => "", hasVar := fun _ => false, query := query }

/-- The route that `credAPI.Routes` registers for the `delete` handler. -/
def credDeleteRoute : Route credHandler :=
  { verb := "DELETE", path := "/v1/creds/deletecreds", fn := .delete }

/-- Sample values of the path constants. -/
def samplePaths : PathConsts :=
  { OsdVolumePath := "osd-volumes", OsdSnapshotPath := "osd-snapshot",
    OsdCloudSnapshotPath := "osd-cloudsnapshot", APIVersion := "v1" }

/-- Whether the constants of which the cloud-snapshot paths are built hold no
    opening brace; a path built of them then names only the variables that
    `Routes` writes into the route text. -/
def PathConsts.braceFree (k : PathConsts) : Bool :=
  !k.OsdCloudSnapshotPath.data.contains '\x7b' && !k.APIVersion.data.contains '\x7b'

/-- The route that `volAPI.Routes` registers for `cloudsnapStatus`. -/
def cloudsnapStatusRoute (k : PathConsts) : Route volHandler :=
  { verb := "GET", path := cloudSnapPath k "/cloudsnapstatus" k.APIVersion,
    fn := .cloudsnapStatus }

/-- The route that `volAPI.Routes` registers for `cloudsnapCreateSched`. -/
def cloudsnapCreateSchedRoute (k : PathConsts) : Route volHandler :=
  { verb := "PUT", path := cloudSnapPath k "/createcloudsnapsched" k.APIVersion,
    fn := .cloudsnapCreateSched }

/-- The route that `volAPI.Routes` registers for `cloudsnapUpdateSched`. -/
def cloudsnapUpdateSchedRoute (k : PathConsts) : Route volHandler :=
  { verb := "POST", path := cloudSnapPath k "/updatecloudsnapsched" k.APIVersion,
    fn := .cloudsnapUpdateSched }

/-- The route that `volAPI.Routes` registers for `cloudsnapEnumerateSched`. -/
def cloudsnapEnumerateSchedRoute (k : PathConsts) : Route volHandler :=
  { verb := "GET", path := cloudSnapPath k "/listcloudsnapsched" k.APIVersion,
    fn := .cloudsnapEnumerateSched }

/-- The route that `volAPI.Routes` registers for `cloudsnapDeleteSched`. -/
def cloudsnapDeleteSchedRoute (k : PathConsts) : Route volHandler :=
  { verb := "DELETE", path := cloudSnapPath k "/deletecloudsnapsched" k.APIVersion,
    fn := .cloudsnapDeleteSched }

/-- The query string `maxbackups=..&sched=daily&credid=cred1&volumeid=vol1&uuid=sched-1`
    of a schedule request. -/
def sampleSchedQuery (maxbackups : String) : GoMap (List String) :=
  ((((Finmap.singleton "maxbackups" [maxbackups]).insert "sched" ["daily"]).insert
    "credid" ["cred1"]).insert "volumeid" ["vol1"]).insert "uuid" ["sched-1"]

/-- The query string `vol=vol1&local=..` of a status request. -/
def sampleStatusQuery (localText : String) : GoMap (List String) :=
  (Finmap.singleton "vol" ["vol1"]).insert "local" [localText]

/-- The records of `memoryDriver`: the number of the next schedule id and the
    schedules by id. -/
structure ScheduleRecords where
  next : Nat
  schedules : GoMap Api.CloudsnapScheduleInfo

/-- Modelled from the spec: a driver that implements the schedule operations
    of the backup group the way the Backup Schedule Lifecycle words them (no
    such driver is among the sources).  Creating stores the schedule under a
    fresh id, updating an unknown id fails and otherwise keeps the volume id,
    listing never fails, deleting removes the id and never fails. -/
def memoryDriver : ScheduleDriver ScheduleRecords :=
  { CreateCloudBackupSchedule := fun s schedInfo =>
      ({ next := s.next + 1,
         schedules := s.schedules.insert ("sched-" ++ toString s.next) schedInfo },
        ("sched-" ++ toString s.next, none)),
    UpdateCloudBackupSchedule := fun s uuid schedInfo =>
      match s.schedules.lookup uuid with
      | none => (s, some "Schedule not found")
      | some old =>
        ({ s with schedules :=
            s.schedules.insert uuid { schedInfo with VolumeID := old.VolumeID } }, none),
    ListCloudBackupSchedules := fun s => (some s.schedules, none),
    DeleteCloudBackupSchedule := fun s uuid =>
      ({ s with schedules := s.schedules.erase uuid }, none) }

/-- A registry holding `memoryDriver` under `bar`, its records being `s`. -/
def memoryDrivers (s : ScheduleRecords) (name : String) : Except Error VolumeDriver :=
  if name = "bar" then .ok (memoryDriver.view s) else .error "Driver not found"

/-- Records holding the one schedule `sched-1`. -/
def sampleRecords : ScheduleRecords :=
  { next := 2,
    schedules := Finmap.singleton "sched-1"
      { VolumeID := "vol1", Schedule := "daily", CredID := "cred1", MaxBackups := 7 } }

end Harness

end Server

namespace Creds

/-! ## Theorems -/

section Lemmas

variable {V : Type}

/-- The sample codec round-trips. -/
theorem sampleJson_roundTrips : sampleJson.RoundTrips := by
  intro db b h
  have key : ∀ p ∈ sampleTable, p.2 ≠ emptyObject ∧
      sampleJson.Unmarshal p.2 { Credentials := some ∅ } = (p.1, none) := by decide
  simp only [sampleJson] at h
  split at h
  · rename_i p hp
    have hdb : p.1 = db := by simpa using List.find?_some hp
    have hmem := List.mem_of_find?_eq_some hp
    cases h
    subst hdb
    exact key p hmem
  · cases h


theorem kvdbGet_fst (w : World V) (env : Env) (k : String) :
    (kvdbGet w env k).1 = { w with log := w.log ++ [Event.get k] } := by
  unfold kvdbGet
  cases env.getErr with
  | some e => rfl
  | none => cases w.store k <;> rfl

theorem kvdbGet_snd_congr {w w' : World V} (env : Env) (k : String)
    (h : w.store = w'.store) : (kvdbGet w env k).2 = (kvdbGet w' env k).2 := by
  unfold kvdbGet
  rw [h]
  cases env.getErr with
  | some e => rfl
  | none => cases w'.store k <;> rfl

theorem readClusterInfo_fst (J : Json V) (w : World V) (env : Env) :
    (readClusterInfo J w env).1 = { w with log := w.log ++ [Event.get CredentialsDBKey] } := by
  unfold readClusterInfo
  exact kvdbGet_fst w env CredentialsDBKey

theorem readClusterInfo_snd_congr (J : Json V) {w w' : World V} (env : Env)
    (h : w.store = w'.store) :
    (readClusterInfo J w env).2 = (readClusterInfo J w' env).2 := by
  unfold readClusterInfo
  have := kvdbGet_snd_congr env CredentialsDBKey h
  simp only [this]

theorem writeClusterInfo_ok (J : Json V) (w : World V) (env : Env) (db : CredentialInfo V)
    {b : String} (hm : J.Marshal db = .ok b) (hp : env.putErr = none) :
    writeClusterInfo J w env db =
      ({ w with log := w.log ++ [Event.put CredentialsDBKey b],
                store := Function.update w.store CredentialsDBKey
                  (some { Key := CredentialsDBKey, Value := b, KVDBIndex := w.nextIndex }),
                nextIndex := w.nextIndex + 1 },
        some { Key := CredentialsDBKey, Value := b, KVDBIndex := w.nextIndex }, none) := by
  simp [writeClusterInfo, kvdbPut, hm, hp]

theorem writeClusterInfo_none (J : Json V) (w : World V) (env : Env) (db : CredentialInfo V)
    (h : (writeClusterInfo J w env db).2.2 = none) :
    ∃ b, J.Marshal db = .ok b ∧ env.putErr = none := by
  unfold writeClusterInfo kvdbPut at h
  cases hm : J.Marshal db with
  | error e => simp [hm] at h
  | ok b =>
    cases hp : env.putErr with
    | some e => simp [hm, hp] at h
    | none => exact ⟨b, rfl, rfl⟩


theorem vaultWrites_append (l₁ l₂ : List (Event V)) :
    vaultWrites (l₁ ++ l₂) = vaultWrites l₁ ++ vaultWrites l₂ := by
  induction l₁ with
  | nil => rfl
  | cons e es ih => cases e <;> simp [vaultWrites, ih]

theorem storeWrites_append (l₁ l₂ : List (Event V)) :
    storeWrites (l₁ ++ l₂) = storeWrites l₁ ++ storeWrites l₂ := by
  induction l₁ with
  | nil => rfl
  | cons e es ih => cases e <;> simp [storeWrites, ih]


theorem kvdbLock_none (w : World V) (env : Env) (k : String) (h : env.lockErr = none) :
    kvdbLock w env k = ({ w with locked := true, log := w.log ++ [Event.lock k] }, none) := by
  simp [kvdbLock, h]

theorem kvdbLock_some (w : World V) (env : Env) (k : String) {e : Error}
    (h : env.lockErr = some e) :
    kvdbLock w env k = ({ w with log := w.log ++ [Event.lock k] }, some e) := by
  simp [kvdbLock, h]

theorem readClusterInfo_eta (J : Json V) (w : World V) (env : Env) :
    readClusterInfo J w env =
      ({ w with log := w.log ++ [Event.get CredentialsDBKey] }, (readClusterInfo J w env).2) := by
  rw [← readClusterInfo_fst]

theorem writeClusterInfo_marshal_error (J : Json V) (w : World V) (env : Env)
    (db : CredentialInfo V) {e : Error} (hm : J.Marshal db = .error e) :
    writeClusterInfo J w env db = (w, none, some e) := by
  simp [writeClusterInfo, hm]

theorem writeClusterInfo_put_error (J : Json V) (w : World V) (env : Env)
    (db : CredentialInfo V) {b : String} {e : Error} (hm : J.Marshal db = .ok b)
    (hp : env.putErr = some e) :
    writeClusterInfo J w env db =
      ({ w with log := w.log ++ [Event.put CredentialsDBKey b] }, none, some e) := by
  simp [writeClusterInfo, kvdbPut, hm, hp]

theorem readClusterInfo_locked (J : Json V) (w : World V) (env : Env) :
    readClusterInfo J { w with locked := true, log := w.log ++ [Event.lock credLockKey] } env =
      ({ w with locked := true,
                log := w.log ++ [Event.lock credLockKey, Event.get CredentialsDBKey] },
        (readClusterInfo J w env).2) := by
  rw [readClusterInfo_eta]
  congr 1
  · simp
  · exact readClusterInfo_snd_congr J env rfl

/-- Equation putting `Update` in normal form. -/
theorem Update_eq (J : Json V) (w : World V) (env : Env) (id : String)
    (cred : CredentialEntry V) :
    CredentialManager.Update J w env id cred =
      match env.lockErr with
      | some _ => ({ w with log := w.log ++ [Event.lock credLockKey] }, .returned none)
      | none =>
        match (readClusterInfo J w env).2 with
        | (_, _, some err) =>
          ({ w with locked := false,
                    log := w.log ++ [Event.lock credLockKey, Event.get CredentialsDBKey,
                      Event.unlock credLockKey] }, .returned (some err))
        | (db, _, none) =>
          match db.Credentials with
          | none =>
            ({ w with locked := false,
                      log := w.log ++ [Event.lock credLockKey, Event.get CredentialsDBKey,
                        Event.unlock credLockKey] }, .panicked "assignment to entry in nil map")
          | some m =>
            match J.Marshal { Credentials := some (m.insert id cred.NonSecretsMap) } with
            | .error e =>
              ({ w with locked := false,
                        log := w.log ++ [Event.lock credLockKey, Event.get CredentialsDBKey,
                          Event.unlock credLockKey] }, .returned (some e))
            | .ok b =>
              match env.putErr with
              | some e =>
                ({ w with locked := false,
                          log := w.log ++ [Event.lock credLockKey, Event.get CredentialsDBKey,
                            Event.put CredentialsDBKey b, Event.unlock credLockKey] },
                  .returned (some e))
              | none =>
                ({ w with locked := false,
                          store := Function.update w.store CredentialsDBKey
                            (some { Key := CredentialsDBKey, Value := b,
                                    KVDBIndex := w.nextIndex }),
                          nextIndex := w.nextIndex + 1,
                          log := w.log ++ [Event.lock credLockKey, Event.get CredentialsDBKey,
                            Event.put CredentialsDBKey b, Event.unlock credLockKey] },
                  .returned none) := by
  unfold CredentialManager.Update
  cases hl : env.lockErr with
  | some e => rw [kvdbLock_some w env _ hl]
  | none =>
    rw [kvdbLock_none w env _ hl]
    simp only []
    rw [readClusterInfo_locked]
    generalize (readClusterInfo J w env).2 = d
    rcases d with ⟨⟨_ | m⟩, idx, _ | err⟩
    · simp [CredentialManager.deferUnlock, kvdbUnlock]
    · simp [CredentialManager.deferUnlock, kvdbUnlock]
    · simp only []
      cases hm : J.Marshal { Credentials := some (m.insert id cred.NonSecretsMap) } with
      | error e =>
        rw [writeClusterInfo_marshal_error J _ env _ hm]
        simp [CredentialManager.deferUnlock, kvdbUnlock]
      | ok b =>
        cases hp : env.putErr with
        | some e =>
          rw [writeClusterInfo_put_error J _ env _ hm hp]
          simp [CredentialManager.deferUnlock, kvdbUnlock]
        | none =>
          rw [writeClusterInfo_ok J _ env _ hm hp]
          simp [CredentialManager.deferUnlock, kvdbUnlock]
    · simp [CredentialManager.deferUnlock, kvdbUnlock]

/-- Equation putting `Delete` in normal form. -/
theorem Delete_eq (J : Json V) (w : World V) (env : Env) (id : String) :
    CredentialManager.Delete J w env id =
      match env.lockErr with
      | some _ => ({ w with log := w.log ++ [Event.lock credLockKey] }, .returned none)
      | none =>
        match (readClusterInfo J w env).2 with
        | (_, _, some err) =>
          ({ w with locked := false,
                    log := w.log ++ [Event.lock credLockKey, Event.get CredentialsDBKey,
                      Event.unlock credLockKey] }, .returned (some err))
        | (db, _, none) =>
          match J.Marshal { Credentials := db.Credentials.map (Finmap.erase id) } with
          | .error e =>
            ({ w with locked := false,
                      log := w.log ++ [Event.lock credLockKey, Event.get CredentialsDBKey,
                        Event.unlock credLockKey] }, .returned (some e))
          | .ok b =>
            match env.putErr with
            | some e =>
              ({ w with locked := false,
                        log := w.log ++ [Event.lock credLockKey, Event.get CredentialsDBKey,
                          Event.put CredentialsDBKey b, Event.unlock credLockKey] },
                .returned (some e))
            | none =>
              ({ w with locked := false,
                        store := Function.update w.store CredentialsDBKey
                          (some { Key := CredentialsDBKey, Value := b,
                                  KVDBIndex := w.nextIndex }),
                        nextIndex := w.nextIndex + 1,
                        log := w.log ++ [Event.lock credLockKey, Event.get CredentialsDBKey,
                          Event.put CredentialsDBKey b, Event.unlock credLockKey] },
                .returned none) := by
  unfold CredentialManager.Delete
  cases hl : env.lockErr with
  | some e => rw [kvdbLock_some w env _ hl]
  | none =>
    rw [kvdbLock_none w env _ hl]
    simp only []
    rw [readClusterInfo_locked]
    generalize (readClusterInfo J w env).2 = d
    rcases d with ⟨db, idx, _ | err⟩
    · simp only []
      cases hm : J.Marshal { Credentials := db.Credentials.map (Finmap.erase id) } with
      | error e =>
        rw [writeClusterInfo_marshal_error J _ env _ hm]
        simp [CredentialManager.deferUnlock, kvdbUnlock]
      | ok b =>
        cases hp : env.putErr with
        | some e =>
          rw [writeClusterInfo_put_error J _ env _ hm hp]
          simp [CredentialManager.deferUnlock, kvdbUnlock]
        | none =>
          rw [writeClusterInfo_ok J _ env _ hm hp]
          simp [CredentialManager.deferUnlock, kvdbUnlock]
    · simp [CredentialManager.deferUnlock, kvdbUnlock]

/-- Equation putting `List` in normal form. -/
theorem List_eq (J : Json V) (w : World V) (env : Env) :
    CredentialManager.List J w env =
      match env.lockErr with
      | some e => ({ w with log := w.log ++ [Event.lock credLockKey] }, none, some e)
      | none =>
        ({ w with locked := false,
                  log := w.log ++ [Event.lock credLockKey, Event.get CredentialsDBKey,
                    Event.unlock credLockKey] },
          match (readClusterInfo J w env).2 with
          | (_, _, some err) => (none, some err)
          | (db, _, none) => (db.Credentials, none)) := by
  unfold CredentialManager.List
  cases hl : env.lockErr with
  | some e => rw [kvdbLock_some w env _ hl]
  | none =>
    rw [kvdbLock_none w env _ hl]
    simp only []
    rw [readClusterInfo_locked]
    generalize (readClusterInfo J w env).2 = d
    rcases d with ⟨db, idx, _ | err⟩ <;> simp [CredentialManager.deferUnlock, kvdbUnlock]

theorem PutSecret_none (w : World V) (env : Env) (id : String) (secret : V)
    (h : env.secretErr = none) :
    PutSecret w env id secret =
      ({ w with vault := Function.update w.vault id (some secret),
                log := w.log ++ [Event.putSecret id secret] }, none) := by
  simp [PutSecret, h]

theorem PutSecret_some (w : World V) (env : Env) (id : String) (secret : V) {e : Error}
    (h : env.secretErr = some e) :
    PutSecret w env id secret =
      ({ w with log := w.log ++ [Event.putSecret id secret] }, some e) := by
  simp [PutSecret, h]

/-- Equation putting `Create` in normal form. -/
theorem Create_eq (J : Json V) (w : World V) (env : Env) (cred : CredentialEntry V) :
    CredentialManager.Create J w env cred =
      match env.lockErr with
      | some _ => ({ w with log := w.log ++ [Event.lock credLockKey] }, .returned none)
      | none =>
        match (readClusterInfo J w env).2 with
        | (_, _, some err) =>
          ({ w with locked := false,
                    log := w.log ++ [Event.lock credLockKey, Event.get CredentialsDBKey,
                      Event.unlock credLockKey] }, .returned (some err))
        | (db, _, none) =>
          match env.secretErr with
          | some _ =>
            ({ w with locked := false,
                      log := w.log ++ [Event.lock credLockKey, Event.get CredentialsDBKey,
                        Event.putSecret env.uuid cred.SecretsMap, Event.unlock credLockKey] },
              .returned (some "Unable to set cluster secret key. Check credentials"))
          | none =>
            match db.Credentials with
            | none =>
              ({ w with locked := false,
                        vault := Function.update w.vault env.uuid (some cred.SecretsMap),
                        log := w.log ++ [Event.lock credLockKey, Event.get CredentialsDBKey,
                          Event.putSecret env.uuid cred.SecretsMap, Event.unlock credLockKey] },
                .panicked "assignment to entry in nil map")
            | some m =>
              match J.Marshal { Credentials := some (m.insert env.uuid cred.NonSecretsMap) } with
              | .error e =>
                ({ w with locked := false,
                          vault := Function.update w.vault env.uuid (some cred.SecretsMap),
                          log := w.log ++ [Event.lock credLockKey, Event.get CredentialsDBKey,
                            Event.putSecret env.uuid cred.SecretsMap,
                            Event.unlock credLockKey] },
                  .returned (some e))
              | .ok b =>
                match env.putErr with
                | some e =>
                  ({ w with locked := false,
                            vault := Function.update w.vault env.uuid (some cred.SecretsMap),
                            log := w.log ++ [Event.lock credLockKey, Event.get CredentialsDBKey,
                              Event.putSecret env.uuid cred.SecretsMap,
                              Event.put CredentialsDBKey b, Event.unlock credLockKey] },
                    .returned (some e))
                | none =>
                  ({ w with locked := false,
                            store := Function.update w.store CredentialsDBKey
                              (some { Key := CredentialsDBKey, Value := b,
                                      KVDBIndex := w.nextIndex }),
                            nextIndex := w.nextIndex + 1,
                            vault := Function.update w.vault env.uuid (some cred.SecretsMap),
                            log := w.log ++ [Event.lock credLockKey, Event.get CredentialsDBKey,
                              Event.putSecret env.uuid cred.SecretsMap,
                              Event.put CredentialsDBKey b, Event.unlock credLockKey] },
                    .returned none) := by
  unfold CredentialManager.Create
  cases hl : env.lockErr with
  | some e => rw [kvdbLock_some w env _ hl]
  | none =>
    rw [kvdbLock_none w env _ hl]
    simp only []
    rw [readClusterInfo_locked]
    generalize (readClusterInfo J w env).2 = d
    rcases d with ⟨⟨_ | m⟩, idx, _ | err⟩
    · simp only []
      cases hs : env.secretErr with
      | some e =>
        rw [PutSecret_some _ env _ _ hs]
        simp [CredentialManager.deferUnlock, kvdbUnlock]
      | none =>
        rw [PutSecret_none _ env _ _ hs]
        simp [CredentialManager.deferUnlock, kvdbUnlock]
    · simp [CredentialManager.deferUnlock, kvdbUnlock]
    · simp only []
      cases hs : env.secretErr with
      | some e =>
        rw [PutSecret_some _ env _ _ hs]
        simp [CredentialManager.deferUnlock, kvdbUnlock]
      | none =>
        rw [PutSecret_none _ env _ _ hs]
        simp only []
        cases hm : J.Marshal { Credentials := some (m.insert env.uuid cred.NonSecretsMap) } with
        | error e =>
          rw [writeClusterInfo_marshal_error J _ env _ hm]
          simp [CredentialManager.deferUnlock, kvdbUnlock]
        | ok b =>
          cases hp : env.putErr with
          | some e =>
            rw [writeClusterInfo_put_error J _ env _ hm hp]
            simp [CredentialManager.deferUnlock, kvdbUnlock]
          | none =>
            rw [writeClusterInfo_ok J _ env _ hm hp]
            simp [CredentialManager.deferUnlock, kvdbUnlock]
    · simp [CredentialManager.deferUnlock, kvdbUnlock]

/-- Reading back a document that was marshalled into the store. -/
theorem readClusterInfo_after_put (J : Json V) (hJ : J.RoundTrips) (w : World V) (env : Env)
    {db : CredentialInfo V} {b : String} {i : Nat} (hm : J.Marshal db = .ok b)
    (hs : w.store CredentialsDBKey = some { Key := CredentialsDBKey, Value := b, KVDBIndex := i })
    (hg : env.getErr = none) :
    (readClusterInfo J w env).2 = (db, i, none) := by
  obtain ⟨hne, hun⟩ := hJ db b hm
  simp [readClusterInfo, kvdbGet, hg, hs, readClusterInfoOf, hne, hun]

/-- The document and error that `readClusterInfo` returns depend on the stored
    bytes only (the index does not matter). -/
theorem readClusterInfo_doc_congr (J : Json V) (w w' : World V) (env : Env)
    (h : (w.store CredentialsDBKey).map KVPair.Value
        = (w'.store CredentialsDBKey).map KVPair.Value) :
    (readClusterInfo J w env).2.1 = (readClusterInfo J w' env).2.1
    ∧ (readClusterInfo J w env).2.2.2 = (readClusterInfo J w' env).2.2.2 := by
  unfold readClusterInfo kvdbGet
  cases env.getErr with
  | some e => exact ⟨rfl, rfl⟩
  | none =>
    cases hw : w.store CredentialsDBKey with
    | none =>
      cases hw' : w'.store CredentialsDBKey with
      | none => exact ⟨rfl, rfl⟩
      | some kv' => simp [hw, hw'] at h
    | some kv =>
      cases hw' : w'.store CredentialsDBKey with
      | none => simp [hw, hw'] at h
      | some kv' =>
        have hv : kv.Value = kv'.Value := by simpa [hw, hw'] using h
        simp only [readClusterInfoOf, hv]
        by_cases hb : kv'.Value = emptyObject
        · simp [hb]
        · rcases hu : J.Unmarshal kv'.Value { Credentials := some ∅ } with ⟨db1, _ | e⟩ <;>
            simp [hb, hu]

/-- What `List` returns depends on the stored bytes only. -/
theorem List_snd_congr (J : Json V) (w w' : World V) (env : Env)
    (h : (w.store CredentialsDBKey).map KVPair.Value
        = (w'.store CredentialsDBKey).map KVPair.Value) :
    (CredentialManager.List J w env).2 = (CredentialManager.List J w' env).2 := by
  rw [List_eq, List_eq]
  cases hl : env.lockErr with
  | some e => rfl
  | none =>
    simp only []
    obtain ⟨h1, h2⟩ := readClusterInfo_doc_congr J w w' env h
    rcases hr : (readClusterInfo J w env).2 with ⟨db, idx, err⟩
    rcases hr' : (readClusterInfo J w' env).2 with ⟨db', idx', err'⟩
    rw [hr, hr'] at h1 h2
    simp only at h1 h2
    subst h1 h2
    cases err <;> rfl

/-- The document that `Create` leaves in the store, and what `Create` returns,
    do not depend on the `SecretsMap` of the entry. -/
theorem Create_secret_indep (J : Json V) (w : World V) (env : Env) (cred : CredentialEntry V)
    (secret : V) :
    (CredentialManager.Create J w env { cred with SecretsMap := secret }).1.store
        = (CredentialManager.Create J w env cred).1.store
    ∧ (CredentialManager.Create J w env { cred with SecretsMap := secret }).2
        = (CredentialManager.Create J w env cred).2 := by
  rw [Create_eq, Create_eq]
  cases env.lockErr with
  | some e => exact ⟨rfl, rfl⟩
  | none =>
    simp only []
    rcases (readClusterInfo J w env).2 with ⟨⟨_ | m⟩, idx, _ | err⟩
    · cases env.secretErr <;> exact ⟨rfl, rfl⟩
    · exact ⟨rfl, rfl⟩
    · cases env.secretErr with
      | some e => exact ⟨rfl, rfl⟩
      | none =>
        simp only []
        cases J.Marshal { Credentials := some (m.insert env.uuid cred.NonSecretsMap) } with
        | error e => exact ⟨rfl, rfl⟩
        | ok b => cases env.putErr <;> exact ⟨rfl, rfl⟩
    · exact ⟨rfl, rfl⟩

/-- What a `Create` that took the lock and returned `nil` has done. -/
theorem Create_success (J : Json V) (w : World V) (env : Env) (cred : CredentialEntry V)
    (hlock : env.lockErr = none)
    (hok : (CredentialManager.Create J w env cred).2 = .returned none) :
    ∃ m idx b, (readClusterInfo J w env).2 = ({ Credentials := some m }, idx, none)
      ∧ env.secretErr = none
      ∧ J.Marshal { Credentials := some (m.insert env.uuid cred.NonSecretsMap) } = .ok b
      ∧ env.putErr = none
      ∧ (CredentialManager.Create J w env cred).1.store CredentialsDBKey
          = some { Key := CredentialsDBKey, Value := b, KVDBIndex := w.nextIndex } := by
  rw [Create_eq] at hok ⊢
  simp only [hlock] at hok ⊢
  rcases hr : (readClusterInfo J w env).2 with ⟨⟨_ | m⟩, idx, _ | err⟩ <;>
    rw [hr] at hok <;> simp only [] at hok ⊢
  · cases hs : env.secretErr <;> rw [hs] at hok <;> simp at hok
  · simp at hok
  · cases hs : env.secretErr with
    | some e => rw [hs] at hok; simp at hok
    | none =>
      rw [hs] at hok
      simp only [] at hok ⊢
      cases hm : J.Marshal { Credentials := some (m.insert env.uuid cred.NonSecretsMap) } with
      | error e => rw [hm] at hok; simp at hok
      | ok b =>
        rw [hm] at hok
        simp only [] at hok ⊢
        cases hp : env.putErr with
        | some e => rw [hp] at hok; simp at hok
        | none => exact ⟨m, idx, b, by simp [hm, hp]⟩
  · simp at hok

/-- What an `Update` that took the lock and returned `nil` has done. -/
theorem Update_success (J : Json V) (w : World V) (env : Env) (id : String)
    (cred : CredentialEntry V) (hlock : env.lockErr = none)
    (hok : (CredentialManager.Update J w env id cred).2 = .returned none) :
    ∃ m idx b, (readClusterInfo J w env).2 = ({ Credentials := some m }, idx, none)
      ∧ J.Marshal { Credentials := some (m.insert id cred.NonSecretsMap) } = .ok b
      ∧ env.putErr = none
      ∧ (CredentialManager.Update J w env id cred).1.store CredentialsDBKey
          = some { Key := CredentialsDBKey, Value := b, KVDBIndex := w.nextIndex } := by
  rw [Update_eq] at hok ⊢
  simp only [hlock] at hok ⊢
  rcases hr : (readClusterInfo J w env).2 with ⟨⟨_ | m⟩, idx, _ | err⟩ <;>
    rw [hr] at hok <;> simp only [] at hok ⊢
  · simp at hok
  · simp at hok
  · cases hm : J.Marshal { Credentials := some (m.insert id cred.NonSecretsMap) } with
    | error e => rw [hm] at hok; simp at hok
    | ok b =>
      rw [hm] at hok
      simp only [] at hok ⊢
      cases hp : env.putErr with
      | some e => rw [hp] at hok; simp at hok
      | none => exact ⟨m, idx, b, by simp [hm, hp]⟩
  · simp at hok

/-- What a `Delete` that took the lock and returned `nil` has done. -/
theorem Delete_success (J : Json V) (w : World V) (env : Env) (id : String)
    (hlock : env.lockErr = none)
    (hok : (CredentialManager.Delete J w env id).2 = .returned none) :
    ∃ db idx b, (readClusterInfo J w env).2 = (db, idx, none)
      ∧ J.Marshal { Credentials := db.Credentials.map (Finmap.erase id) } = .ok b
      ∧ env.putErr = none
      ∧ (CredentialManager.Delete J w env id).1.store CredentialsDBKey
          = some { Key := CredentialsDBKey, Value := b, KVDBIndex := w.nextIndex } := by
  rw [Delete_eq] at hok ⊢
  simp only [hlock] at hok ⊢
  rcases hr : (readClusterInfo J w env).2 with ⟨db, idx, _ | err⟩ <;>
    rw [hr] at hok <;> simp only [] at hok ⊢
  · cases hm : J.Marshal { Credentials := db.Credentials.map (Finmap.erase id) } with
    | error e => rw [hm] at hok; simp at hok
    | ok b =>
      rw [hm] at hok
      simp only [] at hok ⊢
      cases hp : env.putErr with
      | some e => rw [hp] at hok; simp at hok
      | none => exact ⟨db, idx, b, by simp [hm, hp]⟩
  · simp at hok

/-- The document read depends on the environment through `getErr` only. -/
theorem readClusterInfo_snd_env (J : Json V) (w : World V) {env env' : Env}
    (h : env.getErr = env'.getErr) :
    (readClusterInfo J w env).2 = (readClusterInfo J w env').2 := by
  unfold readClusterInfo kvdbGet
  rw [h]

/-- Deleting a key twice from a map is deleting it once. -/
theorem erase_idem (id : String) (o : Option (GoMap V)) :
    (o.map (Finmap.erase id)).map (Finmap.erase id) = o.map (Finmap.erase id) := by
  cases o with
  | none => rfl
  | some m =>
    simp only [Option.map_some']
    congr 1
    apply Finmap.ext_lookup
    intro x
    by_cases hx : x = id
    · subst hx
      rw [Finmap.lookup_erase, Finmap.lookup_erase]
    · rw [Finmap.lookup_erase_ne hx]

/-- Result of `List` after the lock was taken and the document read. -/
theorem List_of_read (J : Json V) (w : World V) (env : Env) (hlock : env.lockErr = none)
    {db : CredentialInfo V} {idx : Nat}
    (hr : (readClusterInfo J w env).2 = (db, idx, none)) :
    (CredentialManager.List J w env).2 = (db.Credentials, none) := by
  rw [List_eq]
  simp only [hlock, hr]

/-- A `Create` that does not return `nil` leaves the store as it was. -/
theorem Create_store_of_failure (J : Json V) (w : World V) (env : Env)
    (cred : CredentialEntry V)
    (h : (CredentialManager.Create J w env cred).2 ≠ .returned none) :
    (CredentialManager.Create J w env cred).1.store = w.store := by
  rw [Create_eq] at h ⊢
  revert h
  repeat' split
  all_goals simp

theorem successes_cons_of_ne (r : Outcome (Option Error)) (rs : List (Outcome (Option Error)))
    (h : r ≠ .returned none) : successes (r :: rs) = successes rs := by
  cases r with
  | panicked msg => rfl
  | returned a =>
    cases a with
    | none => exact absurd rfl h
    | some e => rfl

theorem keys_card_insert (m : GoMap V) (k : String) (v : V) (h : k ∉ m) :
    (m.insert k v).keys.card = m.keys.card + 1 := by
  have hk : (m.insert k v).keys = insert k m.keys := by
    ext x
    simp [Finmap.mem_keys, Finmap.mem_insert]
  rw [hk, Finset.card_insert_of_not_mem (by simpa [Finmap.mem_keys] using h)]

/-- When every call takes the lock and reads the store without a fault, and
    the generated ids are pairwise distinct and not yet in the document, a
    series of `Create` calls adds exactly one entry per call that returned
    `nil`.  (The count of C4 fails only through a swallowed lock failure.) -/
theorem runCreates_count_of_locks (J : Json V) (hJ : J.RoundTrips) (envL : Env)
    (hL : envL.lockErr = none) (hLg : envL.getErr = none) :
    ∀ (calls : List (Env × CredentialEntry V)) (w : World V),
      (∀ c ∈ calls, c.1.lockErr = none ∧ c.1.getErr = none) →
      (∀ c ∈ calls, entryOf (CredentialManager.List J w envL).2.1 c.1.uuid = none) →
      (calls.map (fun c => c.1.uuid)).Nodup →
      entryCount (CredentialManager.List J (runCreates J w calls).1 envL).2.1
        = entryCount (CredentialManager.List J w envL).2.1
          + successes (runCreates J w calls).2 := by
  intro calls
  induction calls with
  | nil => intro w _ _ _; simp [runCreates, successes]
  | cons c rest ih =>
    intro w hok hfresh hnd
    obtain ⟨env, cred⟩ := c
    simp only [runCreates]
    obtain ⟨hlock, hget⟩ := hok (env, cred) (List.mem_cons_self _ _)
    have hok' : ∀ c ∈ rest, c.1.lockErr = none ∧ c.1.getErr = none :=
      fun c hc => hok c (List.mem_cons_of_mem _ hc)
    rw [List.map_cons, List.nodup_cons] at hnd
    obtain ⟨hnot, hnd'⟩ := hnd
    by_cases hs : (CredentialManager.Create J w env cred).2 = .returned none
    · obtain ⟨m, idx, b, hr, _, hm, _, hst⟩ := Create_success J w env cred hlock hs
      rw [readClusterInfo_snd_env J w (hget.trans hLg.symm)] at hr
      have hbefore := List_of_read J w envL hL hr
      have hafter := List_of_read J _ envL hL
        (readClusterInfo_after_put J hJ (CredentialManager.Create J w env cred).1 envL
          hm hst hLg)
      have hu : env.uuid ∉ m := by
        have := hfresh (env, cred) (List.mem_cons_self _ _)
        rw [hbefore] at this
        exact Finmap.lookup_eq_none.1 this
      have hfresh' : ∀ c ∈ rest,
          entryOf (CredentialManager.List J (CredentialManager.Create J w env cred).1 envL).2.1
            c.1.uuid = none := by
        intro c hc
        have hne : c.1.uuid ≠ env.uuid := by
          intro heq
          exact hnot (List.mem_map.2 ⟨c, hc, heq⟩)
        have := hfresh c (List.mem_cons_of_mem _ hc)
        rw [hbefore] at this
        rw [hafter]
        simp only [entryOf, Option.some_bind] at this ⊢
        rw [Finmap.lookup_insert_of_ne _ hne]
        exact this
      rw [ih _ hok' hfresh' hnd', hafter, hbefore, hs]
      simp only [entryCount, successes, keys_card_insert m _ _ hu]
      omega
    · have hst := Create_store_of_failure J w env cred hs
      have hsame : ∀ e, (CredentialManager.List J (CredentialManager.Create J w env cred).1 e).2
          = (CredentialManager.List J w e).2 :=
        fun e => List_snd_congr J _ _ e (by rw [hst])
      have hfresh' : ∀ c ∈ rest,
          entryOf (CredentialManager.List J (CredentialManager.Create J w env cred).1 envL).2.1
            c.1.uuid = none := by
        intro c hc
        rw [hsame]
        exact hfresh c (List.mem_cons_of_mem _ hc)
      rw [ih _ hok' hfresh' hnd', hsame, successes_cons_of_ne _ _ hs]

end Lemmas

section Claims

variable {V : Type}

/-- Claim C1 (the code departs from the claim).  When `kvdb.Lock` answers an
    error `e`, `List` hands `e` to its caller, but `Create`, `Update` and
    `Delete` return `nil`: the lock failure is swallowed.  None of the four
    issues any further call, so nothing is written to the document store or
    to the vault. -/
theorem lock_failure_swallowed (J : Json V) (w : World V) (e : Error)
    (g p s : Option Error) (u id : String) (cred : CredentialEntry V) :
    CredentialManager.List J w ⟨some e, g, p, s, u⟩
        = ({ w with log := w.log ++ [Event.lock credLockKey] }, none, some e)
    ∧ CredentialManager.Create J w ⟨some e, g, p, s, u⟩ cred
        = ({ w with log := w.log ++ [Event.lock credLockKey] }, .returned none)
    ∧ CredentialManager.Update J w ⟨some e, g, p, s, u⟩ id cred
        = ({ w with log := w.log ++ [Event.lock credLockKey] }, .returned none)
    ∧ CredentialManager.Delete J w ⟨some e, g, p, s, u⟩ id
        = ({ w with log := w.log ++ [Event.lock credLockKey] }, .returned none) := by
  refine ⟨?_, ?_, ?_, ?_⟩
  · rw [List_eq]
  · rw [Create_eq]
  · rw [Update_eq]
  · rw [Delete_eq]

/-- Claim C8.  `List`, `Update` and `Delete` leave the secret vault as it was and
    issue no vault write, in every state, for every argument and whatever the
    services answer. -/
theorem list_update_delete_keep_vault (J : Json V) (w : World V) (env : Env)
    (id : String) (cred : CredentialEntry V) :
    ((CredentialManager.List J w env).1.vault = w.vault
      ∧ vaultWrites (CredentialManager.List J w env).1.log = vaultWrites w.log)
    ∧ ((CredentialManager.Update J w env id cred).1.vault = w.vault
      ∧ vaultWrites (CredentialManager.Update J w env id cred).1.log = vaultWrites w.log)
    ∧ ((CredentialManager.Delete J w env id).1.vault = w.vault
      ∧ vaultWrites (CredentialManager.Delete J w env id).1.log = vaultWrites w.log) := by
  refine ⟨?_, ?_, ?_⟩
  · rw [List_eq]
    split <;> simp [vaultWrites_append, vaultWrites]
  · rw [Update_eq]
    repeat' split
    all_goals simp [vaultWrites_append, vaultWrites]
  · rw [Delete_eq]
    repeat' split
    all_goals simp [vaultWrites_append, vaultWrites]

/-- Claim C9.  Whenever `kvdb.Lock` succeeds, each of `List`, `Create`, `Update`
    and `Delete` ends with the lock released, and `Unlock` is the last call it
    issues; this holds whatever the store read, the decoding, the vault write
    and the document write answer (and also when `Create` or `Update` panic). -/
theorem lock_released_on_every_path (J : Json V) (w : World V) (g p s : Option Error)
    (u id : String) (cred : CredentialEntry V) :
    ((CredentialManager.List J w ⟨none, g, p, s, u⟩).1.locked = false
      ∧ (CredentialManager.List J w ⟨none, g, p, s, u⟩).1.log.getLast?
          = some (Event.unlock credLockKey))
    ∧ ((CredentialManager.Create J w ⟨none, g, p, s, u⟩ cred).1.locked = false
      ∧ (CredentialManager.Create J w ⟨none, g, p, s, u⟩ cred).1.log.getLast?
          = some (Event.unlock credLockKey))
    ∧ ((CredentialManager.Update J w ⟨none, g, p, s, u⟩ id cred).1.locked = false
      ∧ (CredentialManager.Update J w ⟨none, g, p, s, u⟩ id cred).1.log.getLast?
          = some (Event.unlock credLockKey))
    ∧ ((CredentialManager.Delete J w ⟨none, g, p, s, u⟩ id).1.locked = false
      ∧ (CredentialManager.Delete J w ⟨none, g, p, s, u⟩ id).1.log.getLast?
          = some (Event.unlock credLockKey)) := by
  refine ⟨?_, ?_, ?_, ?_⟩
  · rw [List_eq]
    simp [List.getLast?_append]
  · rw [Create_eq]
    simp only []
    repeat' split
    all_goals simp [List.getLast?_append]
  · rw [Update_eq]
    simp only []
    repeat' split
    all_goals simp [List.getLast?_append]
  · rw [Delete_eq]
    simp only []
    repeat' split
    all_goals simp [List.getLast?_append]

/-- Claim C2.  If `Create` takes the lock, reads the store without a fault
    and returns `nil` (so the vault write and the document write succeeded),
    and the codec round-trips, then a following `List` whose lock and store
    read succeed returns the mapping `m` that `List` showed before with the
    generated id set to the entry's `NonSecretsMap`: (1) its value at that id
    is the `NonSecretsMap`; (2) the `SecretsMap` is no part of it: the result
    is the same whatever `SecretsMap` the entry carries, and an entry can have
    the value of the `SecretsMap` only where the `NonSecretsMap` itself or an
    entry already in the document has that value. -/
theorem create_then_list (J : Json V) (hJ : J.RoundTrips) (w : World V) (env env' : Env)
    (cred : CredentialEntry V) (hlock : env.lockErr = none)
    (hget : env.getErr = none)
    (hok : (CredentialManager.Create J w env cred).2 = .returned none)
    (hlock' : env'.lockErr = none) (hget' : env'.getErr = none) :
    ∃ m, (CredentialManager.List J w env').2 = (some m, none)
      ∧ (CredentialManager.List J (CredentialManager.Create J w env cred).1 env').2
          = (some (m.insert env.uuid cred.NonSecretsMap), none)
      ∧ entryOf (CredentialManager.List J (CredentialManager.Create J w env cred).1 env').2.1
          env.uuid = some cred.NonSecretsMap
      ∧ (∀ secret : V,
          (CredentialManager.Create J w env { cred with SecretsMap := secret }).2
              = .returned none
          ∧ (CredentialManager.List J
              (CredentialManager.Create J w env { cred with SecretsMap := secret }).1 env').2
            = (CredentialManager.List J (CredentialManager.Create J w env cred).1 env').2)
      ∧ ∀ k, entryOf
            (CredentialManager.List J (CredentialManager.Create J w env cred).1 env').2.1 k
            = some cred.SecretsMap →
          cred.NonSecretsMap = cred.SecretsMap ∨ entryOf (some m) k = some cred.SecretsMap := by
  obtain ⟨m, idx, b, hr, _, hm, _, hst⟩ := Create_success J w env cred hlock hok
  have hr' := readClusterInfo_after_put J hJ (CredentialManager.Create J w env cred).1 env'
    hm hst hget'
  have hl' := List_of_read J _ env' hlock' hr'
  rw [readClusterInfo_snd_env J w (hget.trans hget'.symm)] at hr
  refine ⟨m, List_of_read J w env' hlock' hr, hl', ?_, ?_, ?_⟩
  · rw [hl']
    simp [entryOf, Finmap.lookup_insert]
  · intro secret
    obtain ⟨hs, ho⟩ := Create_secret_indep J w env cred secret
    exact ⟨ho.trans hok, List_snd_congr J _ _ env' (by rw [hs])⟩
  · intro k hk
    rw [hl'] at hk
    simp only [entryOf, Option.some_bind] at hk ⊢
    by_cases hku : k = env.uuid
    · subst hku
      rw [Finmap.lookup_insert] at hk
      exact Or.inl (Option.some.inj hk)
    · rw [Finmap.lookup_insert_of_ne _ hku] at hk
      exact Or.inr hk

/-- Instance of `create_then_list`: on an empty store, creating the entry
    `(aws, key)` under id `u1` makes `List` show `aws` at `u1`, and nothing
    else: the listing has one entry. -/
theorem create_then_list_witness :
    sampleJson.RoundTrips
    ∧ (CredentialManager.Create sampleJson world0 env0 ⟨"aws", "key"⟩).2 = .returned none
    ∧ entryOf
        (CredentialManager.List sampleJson
          (CredentialManager.Create sampleJson world0 env0 ⟨"aws", "key"⟩).1 env0).2.1
        "u1" = some "aws"
    ∧ entryCount
        (CredentialManager.List sampleJson
          (CredentialManager.Create sampleJson world0 env0 ⟨"aws", "key"⟩).1 env0).2.1 = 1 := by
  obtain ⟨_, _, _, h, _⟩ :=
    create_then_list sampleJson sampleJson_roundTrips world0 env0 env0 ⟨"aws", "key"⟩
      rfl rfl (by decide) rfl rfl
  exact ⟨sampleJson_roundTrips, by decide, h, by decide⟩

/-- Claim C3.  If `Create` holds the lock and the vault write fails, `Create`
    returns a non-nil error, the stored document is untouched and no document
    write is issued; when the document had been read without error, the error
    returned is the "Unable to set cluster secret key" one. -/
theorem create_vault_failure_keeps_document (J : Json V) (w : World V) (env : Env)
    (cred : CredentialEntry V) (e : Error) (hlock : env.lockErr = none)
    (hsec : env.secretErr = some e) :
    (∃ err, (CredentialManager.Create J w env cred).2 = .returned (some err))
    ∧ (CredentialManager.Create J w env cred).1.store = w.store
    ∧ storeWrites (CredentialManager.Create J w env cred).1.log = storeWrites w.log
    ∧ ((readClusterInfo J w env).2.2.2 = none →
        (CredentialManager.Create J w env cred).2
          = .returned (some "Unable to set cluster secret key. Check credentials")) := by
  rw [Create_eq]
  simp only [hlock, hsec]
  rcases (readClusterInfo J w env).2 with ⟨db, idx, _ | err⟩ <;>
    simp [storeWrites_append, storeWrites]

/-- Instance of `create_vault_failure_keeps_document`: an empty store and a
    vault that rejects the write. -/
theorem create_vault_failure_keeps_document_witness :
    envVaultFails.lockErr = none ∧ envVaultFails.secretErr = some "vault sealed"
    ∧ (CredentialManager.Create sampleJson world0 envVaultFails ⟨"aws", "key"⟩).2
        = .returned (some "Unable to set cluster secret key. Check credentials")
    ∧ (CredentialManager.Create sampleJson world0 envVaultFails ⟨"aws", "key"⟩).1.store
        = world0.store :=
  ⟨rfl, rfl,
    (create_vault_failure_keeps_document sampleJson world0 envVaultFails ⟨"aws", "key"⟩
      "vault sealed" rfl rfl).2.2.2 (by decide),
    (create_vault_failure_keeps_document sampleJson world0 envVaultFails ⟨"aws", "key"⟩
      "vault sealed" rfl rfl).2.1⟩

/-- Claim C5.  If `Update(id, cred)` takes the lock, reads the store without a
    fault and returns `nil`, and the codec round-trips, then a following
    `List` whose lock and store read succeed maps `id` to the entry's
    `NonSecretsMap`, whether or not `id` was present before, and maps every
    other id as the same `List` did before the update. -/
theorem update_is_upsert (J : Json V) (hJ : J.RoundTrips) (w : World V) (env env' : Env)
    (id : String) (cred : CredentialEntry V) (hlock : env.lockErr = none)
    (hget : env.getErr = none)
    (hok : (CredentialManager.Update J w env id cred).2 = .returned none)
    (hlock' : env'.lockErr = none) (hget' : env'.getErr = none) :
    ∃ m, (CredentialManager.List J w env').2 = (some m, none)
      ∧ (CredentialManager.List J (CredentialManager.Update J w env id cred).1 env').2
          = (some (m.insert id cred.NonSecretsMap), none)
      ∧ entryOf
          (CredentialManager.List J (CredentialManager.Update J w env id cred).1 env').2.1 id
          = some cred.NonSecretsMap
      ∧ ∀ k, k ≠ id →
          entryOf
            (CredentialManager.List J (CredentialManager.Update J w env id cred).1 env').2.1 k
          = entryOf (CredentialManager.List J w env').2.1 k := by
  obtain ⟨m, idx, b, hr, hm, _, hst⟩ := Update_success J w env id cred hlock hok
  have hr' := readClusterInfo_after_put J hJ (CredentialManager.Update J w env id cred).1 env'
    hm hst hget'
  have hl' := List_of_read J _ env' hlock' hr'
  rw [readClusterInfo_snd_env J w (hget.trans hget'.symm)] at hr
  have hl := List_of_read J w env' hlock' hr
  refine ⟨m, hl, hl', ?_, ?_⟩
  · rw [hl']
    simp [entryOf, Finmap.lookup_insert]
  · intro k hk
    rw [hl', hl]
    simp only [entryOf, Option.some_bind]
    exact Finmap.lookup_insert_of_ne _ hk

/-- Instance of `update_is_upsert`: updating the absent id `u1` on an empty
    store makes it appear in `List`. -/
theorem update_is_upsert_witness :
    (CredentialManager.List sampleJson world0 env0).2 = (some ∅, none)
    ∧ (CredentialManager.Update sampleJson world0 env0 "u1" ⟨"aws", "key"⟩).2 = .returned none
    ∧ entryOf
        (CredentialManager.List sampleJson
          (CredentialManager.Update sampleJson world0 env0 "u1" ⟨"aws", "key"⟩).1 env0).2.1
        "u1" = some "aws" := by
  obtain ⟨_, _, _, h, _⟩ :=
    update_is_upsert sampleJson sampleJson_roundTrips world0 env0 env0 "u1" ⟨"aws", "key"⟩
      rfl rfl (by decide) rfl rfl
  exact ⟨by decide, by decide, h⟩

/-- Claim C6.  With the lock taken and the store read without a fault by
    `Delete(id)`, and a round-tripping codec: (1) if `Delete` returns `nil`,
    a following `List` whose lock and read succeed has no entry for `id` and
    shows every other id exactly as the same `List` did before; (2) if the
    document is read without error, marshalled and put without error, `Delete`
    returns `nil`, whether or not `id` was present. -/
theorem delete_removes_only_id (J : Json V) (hJ : J.RoundTrips) (w : World V)
    (env env' : Env) (id : String) (hlock : env.lockErr = none) (hget : env.getErr = none)
    (hlock' : env'.lockErr = none) (hget' : env'.getErr = none) :
    ((CredentialManager.Delete J w env id).2 = .returned none →
      ∃ m0, (CredentialManager.List J w env').2 = (m0, none)
        ∧ (CredentialManager.List J (CredentialManager.Delete J w env id).1 env').2
            = (m0.map (Finmap.erase id), none)
        ∧ entryOf
            (CredentialManager.List J (CredentialManager.Delete J w env id).1 env').2.1 id
            = none
        ∧ ∀ k, k ≠ id →
            entryOf
              (CredentialManager.List J (CredentialManager.Delete J w env id).1 env').2.1 k
            = entryOf (CredentialManager.List J w env').2.1 k)
    ∧ (∀ m0 b, (CredentialManager.List J w env').2 = (m0, none) →
        J.Marshal { Credentials := m0.map (Finmap.erase id) } = .ok b →
        env.putErr = none →
        (CredentialManager.Delete J w env id).2 = .returned none) := by
  have henv := readClusterInfo_snd_env J w (hget.trans hget'.symm)
  constructor
  · intro hok
    obtain ⟨db, idx, b, hr, hm, _, hst⟩ := Delete_success J w env id hlock hok
    have hr' := readClusterInfo_after_put J hJ (CredentialManager.Delete J w env id).1 env'
      hm hst hget'
    have hl' := List_of_read J _ env' hlock' hr'
    rw [henv] at hr
    have hl := List_of_read J w env' hlock' hr
    refine ⟨db.Credentials, hl, hl', ?_, ?_⟩
    · rw [hl']
      cases db.Credentials with
      | none => rfl
      | some m => simp [entryOf, Finmap.lookup_erase]
    · intro k hk
      rw [hl', hl]
      cases db.Credentials with
      | none => rfl
      | some m => simp [entryOf, Finmap.lookup_erase_ne hk]
  · intro m0 b hl hm hp
    rw [List_eq] at hl
    simp only [hlock'] at hl
    rw [Delete_eq]
    simp only [hlock, henv]
    rcases hr : (readClusterInfo J w env').2 with ⟨db, idx, _ | err⟩ <;> rw [hr] at hl <;>
      simp only [Prod.mk.injEq] at hl
    · obtain ⟨hdb, -⟩ := hl
      simp only [hdb, hm, hp]
    · exact absurd hl.2 (by simp)

/-- Instances of `delete_removes_only_id`: deleting the present id `u1`, and
    deleting the absent id `zz` from an empty store. -/
theorem delete_removes_only_id_witness :
    ((CredentialManager.Delete sampleJson worldOne env0 "u1").2 = .returned none
      ∧ entryOf (CredentialManager.List sampleJson worldOne env0).2.1 "u1" = some "aws"
      ∧ entryOf
          (CredentialManager.List sampleJson
            (CredentialManager.Delete sampleJson worldOne env0 "u1").1 env0).2.1 "u1" = none)
    ∧ (entryOf (CredentialManager.List sampleJson world0 env0).2.1 "zz" = none
      ∧ (CredentialManager.Delete sampleJson world0 env0 "zz").2 = .returned none) := by
  have h := delete_removes_only_id sampleJson sampleJson_roundTrips worldOne env0 env0 "u1"
    rfl rfl rfl rfl
  have h0 := delete_removes_only_id sampleJson sampleJson_roundTrips world0 env0 env0 "zz"
    rfl rfl rfl rfl
  obtain ⟨_, _, _, h3, _⟩ := h.1 (by decide)
  exact ⟨⟨by decide, by decide, h3⟩, by decide,
    h0.2 (some ∅) "\x7b\"Credentials\":\x7b\x7d\x7d" (by decide) (by rfl) rfl⟩

/-- Claim C7.  If a first `Delete(id)` takes the lock and returns `nil`, and the
    lock, store read and store write of a second `Delete(id)` succeed (codec
    round-tripping), then the second call returns `nil`, stores the same bytes
    as the first, and every `List` answers after it what it would have
    answered before it. -/
theorem delete_twice_is_idempotent (J : Json V) (hJ : J.RoundTrips) (w : World V)
    (env₁ env₂ : Env) (id : String) (hlock₁ : env₁.lockErr = none)
    (hok₁ : (CredentialManager.Delete J w env₁ id).2 = .returned none)
    (hlock₂ : env₂.lockErr = none) (hget₂ : env₂.getErr = none)
    (hput₂ : env₂.putErr = none) :
    (CredentialManager.Delete J (CredentialManager.Delete J w env₁ id).1 env₂ id).2
        = .returned none
    ∧ ((CredentialManager.Delete J (CredentialManager.Delete J w env₁ id).1 env₂ id).1.store
          CredentialsDBKey).map KVPair.Value
        = ((CredentialManager.Delete J w env₁ id).1.store CredentialsDBKey).map KVPair.Value
    ∧ ∀ env₃,
        (CredentialManager.List J
          (CredentialManager.Delete J (CredentialManager.Delete J w env₁ id).1 env₂ id).1
          env₃).2
        = (CredentialManager.List J (CredentialManager.Delete J w env₁ id).1 env₃).2 := by
  obtain ⟨db, idx, b, _, hm, _, hst⟩ := Delete_success J w env₁ id hlock₁ hok₁
  have hr' := readClusterInfo_after_put J hJ (CredentialManager.Delete J w env₁ id).1 env₂
    hm hst hget₂
  generalize CredentialManager.Delete J w env₁ id = r at hst hr' ⊢
  have hd : CredentialManager.Delete J r.1 env₂ id
      = ({ r.1 with locked := false,
                    store := Function.update r.1.store CredentialsDBKey
                      (some { Key := CredentialsDBKey, Value := b,
                              KVDBIndex := r.1.nextIndex }),
                    nextIndex := r.1.nextIndex + 1,
                    log := r.1.log ++ [Event.lock credLockKey, Event.get CredentialsDBKey,
                      Event.put CredentialsDBKey b, Event.unlock credLockKey] },
          .returned none) := by
    rw [Delete_eq]
    simp only [hlock₂, hr', erase_idem, hm, hput₂]
  have hv : ((CredentialManager.Delete J r.1 env₂ id).1.store CredentialsDBKey).map
      KVPair.Value = (r.1.store CredentialsDBKey).map KVPair.Value := by
    rw [hd, hst]
    simp
  exact ⟨by rw [hd], hv, fun env₃ => List_snd_congr J _ _ env₃ hv⟩

/-- Instance of `delete_twice_is_idempotent`: deleting `u1` twice from the
    one-entry document. -/
theorem delete_twice_is_idempotent_witness :
    (CredentialManager.Delete sampleJson worldOne env0 "u1").2 = .returned none
    ∧ (CredentialManager.Delete sampleJson
        (CredentialManager.Delete sampleJson worldOne env0 "u1").1 env0 "u1").2
        = .returned none :=
  ⟨by decide,
    (delete_twice_is_idempotent sampleJson sampleJson_roundTrips worldOne env0 env0 "u1"
      rfl (by decide) rfl rfl rfl).1⟩

/-- Claim C10 (as stated it fails).  On a store that holds no credential
    document the store read answers the error "Key not found", yet `List`
    returns an empty mapping and no error. -/
theorem list_tolerates_key_not_found :
    (kvdbGet world0 env0 CredentialsDBKey).2 = (none, some "Key not found")
    ∧ (CredentialManager.List sampleJson world0 env0).2 = (some ∅, none) := by
  decide

/-- Claim C10 (amended).  `List` returns a non-nil error and the nil mapping
    whenever the store read answers an error whose message does not contain
    "Key not found", or the stored bytes, other than the two bytes of the
    empty object, fail to decode. -/
theorem list_fails_on_read_or_decode_error (J : Json V) (w : World V) (env : Env)
    (h : (∃ e, env.getErr = some e ∧ stringsContains e "Key not found" = false)
      ∨ (∃ kv db1 e, env.getErr = none ∧ w.store CredentialsDBKey = some kv
          ∧ kv.Value ≠ emptyObject
          ∧ J.Unmarshal kv.Value { Credentials := some ∅ } = (db1, some e))) :
    ∃ err, (CredentialManager.List J w env).2 = (none, some err) := by
  rw [List_eq]
  cases hl : env.lockErr with
  | some e => exact ⟨e, rfl⟩
  | none =>
    simp only []
    rcases h with ⟨e, hg, hc⟩ | ⟨kv, db1, e, hg, hs, hne, hu⟩
    · refine ⟨e, ?_⟩
      simp [readClusterInfo, kvdbGet, hg, readClusterInfoOf, hc]
    · refine ⟨e, ?_⟩
      simp [readClusterInfo, kvdbGet, hg, hs, readClusterInfoOf, hne, hu]

/-- Instances of `list_fails_on_read_or_decode_error`: a store that cannot be
    reached, and a store holding bytes that do not decode. -/
theorem list_fails_on_read_or_decode_error_witness :
    (∃ err, (CredentialManager.List sampleJson world0 envGetFails).2 = (none, some err))
    ∧ (∃ err, (CredentialManager.List sampleJson worldGarbage env0).2 = (none, some err)) :=
  ⟨list_fails_on_read_or_decode_error sampleJson world0 envGetFails
      (Or.inl ⟨"connection refused", rfl, by decide⟩),
    list_fails_on_read_or_decode_error sampleJson worldGarbage env0
      (Or.inr ⟨{ Key := CredentialsDBKey, Value := "not json", KVDBIndex := 1 },
        { Credentials := some ∅ }, "invalid character", rfl, by decide, by decide,
        by decide⟩)⟩

/-- Claim C4 (the code departs from the claim).  A single `Create` whose lock
    acquisition times out returns no error, so it counts as a successful call,
    yet the document has as many entries after it as before: none. -/
theorem create_count_off_after_lock_failure :
    (runCreates sampleJson world0 [(envLockFails, ⟨"aws", "key"⟩)]).2 = [.returned none]
    ∧ successes (runCreates sampleJson world0 [(envLockFails, ⟨"aws", "key"⟩)]).2 = 1
    ∧ entryCount (CredentialManager.List sampleJson world0 env0).2.1 = 0
    ∧ entryCount
        (CredentialManager.List sampleJson
          (runCreates sampleJson world0 [(envLockFails, ⟨"aws", "key"⟩)]).1 env0).2.1 = 0 := by
  decide

/-- Claim C11.  `List` returns the same mapping and error in any two states
    whose store holds the same credential document, whatever their vaults
    hold: no secret material flows into its result. -/
theorem list_ignores_vault (J : Json V) (w w' : World V) (env : Env)
    (h : w.store CredentialsDBKey = w'.store CredentialsDBKey) :
    (CredentialManager.List J w env).2 = (CredentialManager.List J w' env).2 :=
  List_snd_congr J w w' env (by rw [h])

/-- Instance of `list_ignores_vault`: the one-entry document with an empty
    vault and with the secret of `u1` in the vault. -/
theorem list_ignores_vault_witness :
    worldOne.store CredentialsDBKey = worldOneSecret.store CredentialsDBKey
    ∧ worldOne.vault "u1" = none ∧ worldOneSecret.vault "u1" = some "key"
    ∧ (CredentialManager.List sampleJson worldOne env0).2
        = (CredentialManager.List sampleJson worldOneSecret env0).2 :=
  ⟨rfl, rfl, rfl, list_ignores_vault sampleJson worldOne worldOneSecret env0 rfl⟩

/-- Claim C12.  If `Create` holds the lock, reads a document with a non-nil
    mapping, the vault write succeeds and the document write then fails (in
    marshalling or in `kvdb.Put`), `Create` returns a non-nil error, the
    secret stays in the vault under the generated id, that vault write is the
    only one issued, and the store is as it was. -/
theorem create_write_failure_orphans_secret (J : Json V) (w : World V) (env : Env)
    (cred : CredentialEntry V) (m : GoMap V) (idx : Nat)
    (hlock : env.lockErr = none)
    (hread : (readClusterInfo J w env).2 = ({ Credentials := some m }, idx, none))
    (hsec : env.secretErr = none)
    (hfail : (∃ e, J.Marshal { Credentials := some (m.insert env.uuid cred.NonSecretsMap) }
                = .error e)
      ∨ (∃ e, env.putErr = some e)) :
    (∃ err, (CredentialManager.Create J w env cred).2 = .returned (some err))
    ∧ (CredentialManager.Create J w env cred).1.vault env.uuid = some cred.SecretsMap
    ∧ vaultWrites (CredentialManager.Create J w env cred).1.log
        = vaultWrites w.log ++ [(env.uuid, cred.SecretsMap)]
    ∧ (CredentialManager.Create J w env cred).1.store = w.store := by
  rw [Create_eq]
  simp only [hlock, hread, hsec]
  cases hm : J.Marshal { Credentials := some (m.insert env.uuid cred.NonSecretsMap) } with
  | error e => simp [vaultWrites_append, vaultWrites]
  | ok b =>
    rcases hfail with ⟨e, he⟩ | ⟨e, he⟩
    · rw [hm] at he
      cases he
    · simp [he, vaultWrites_append, vaultWrites]

/-- Instance of `create_write_failure_orphans_secret`: an empty store whose
    `Put` fails. -/
theorem create_write_failure_orphans_secret_witness :
    (CredentialManager.Create sampleJson world0 envPutFails ⟨"aws", "key"⟩).2
        = .returned (some "put failed")
    ∧ (CredentialManager.Create sampleJson world0 envPutFails ⟨"aws", "key"⟩).1.vault "u1"
        = some "key"
    ∧ (CredentialManager.Create sampleJson world0 envPutFails ⟨"aws", "key"⟩).1.store
        = world0.store := by
  have h := create_write_failure_orphans_secret sampleJson world0 envPutFails ⟨"aws", "key"⟩
    ∅ 0 rfl (by decide) rfl (Or.inr ⟨"put failed", rfl⟩)
  exact ⟨by decide, h.2.1, h.2.2.2⟩

/-- Claim C25 (the code departs from the claim).  When the stored document
    decodes without error to a nil `Credentials` map, as JSON `null` does,
    `Create` and `Update` that hold the lock (and, for `Create`, have written
    the secret) assign into the nil map and panic. -/
theorem null_credentials_document_panics (J : Json V) (w : World V) (env : Env)
    (id : String) (cred : CredentialEntry V) (kv : KVPair)
    (hlock : env.lockErr = none) (hget : env.getErr = none) (hsec : env.secretErr = none)
    (hkv : w.store CredentialsDBKey = some kv) (hne : kv.Value ≠ emptyObject)
    (hnull : J.Unmarshal kv.Value { Credentials := some ∅ }
      = ({ Credentials := none }, none)) :
    (CredentialManager.Create J w env cred).2 = .panicked "assignment to entry in nil map"
    ∧ (CredentialManager.Update J w env id cred).2
        = .panicked "assignment to entry in nil map" := by
  have hr : (readClusterInfo J w env).2 = ({ Credentials := none }, kv.KVDBIndex, none) := by
    simp [readClusterInfo, kvdbGet, hget, hkv, readClusterInfoOf, hne, hnull]
  constructor
  · rw [Create_eq]
    simp only [hlock, hr, hsec]
  · rw [Update_eq]
    simp only [hlock, hr]

/-- Instance of `null_credentials_document_panics`: the store holds the text
    of a document whose `Credentials` is `null`. -/
theorem null_credentials_document_panics_witness :
    (worldNullDoc.store CredentialsDBKey).map KVPair.Value
        = some "\x7b\"Credentials\":null\x7d"
    ∧ (CredentialManager.Create sampleJson worldNullDoc env0 ⟨"aws", "key"⟩).2
        = .panicked "assignment to entry in nil map"
    ∧ (CredentialManager.Update sampleJson worldNullDoc env0 "u1" ⟨"aws", "key"⟩).2
        = .panicked "assignment to entry in nil map" :=
  ⟨by decide,
    null_credentials_document_panics sampleJson worldNullDoc env0 "u1" ⟨"aws", "key"⟩
      { Key := CredentialsDBKey, Value := "\x7b\"Credentials\":null\x7d", KVDBIndex := 1 }
      rfl rfl rfl (by decide) (by decide) (by decide)⟩

/-- Claim C26.  `readClusterInfo` applies `readClusterInfoOf` to what
    `kvdb.Get` answers, and: (1) with no pair and either no error or an error
    containing "Key not found", it returns the empty non-nil mapping, index 0
    and no error; (2) so it does when the pair holds exactly the bytes of the
    empty object (the error being absent or of that kind); (3) any other error
    is returned as it is, with the empty mapping and index 0. -/
theorem readClusterInfo_uninitialised (J : Json V) :
    (∀ (w : World V) (env : Env),
        (readClusterInfo J w env).2
          = readClusterInfoOf J (kvdbGet w env CredentialsDBKey).2.1
              (kvdbGet w env CredentialsDBKey).2.2)
    ∧ (∀ err : Option Error,
        (err = none ∨ ∃ e, err = some e ∧ stringsContains e "Key not found" = true) →
        readClusterInfoOf J none err = ({ Credentials := some ∅ }, 0, none))
    ∧ (∀ (kv : KVPair) (err : Option Error),
        (err = none ∨ ∃ e, err = some e ∧ stringsContains e "Key not found" = true) →
        kv.Value = emptyObject →
        readClusterInfoOf J (some kv) err = ({ Credentials := some ∅ }, 0, none))
    ∧ (∀ (kv : Option KVPair) (e : Error), stringsContains e "Key not found" = false →
        readClusterInfoOf J kv (some e) = ({ Credentials := some ∅ }, 0, some e)) := by
  refine ⟨fun w env => rfl, ?_, ?_, ?_⟩
  · intro err h
    rcases h with rfl | ⟨e, rfl, he⟩
    · simp [readClusterInfoOf]
    · simp [readClusterInfoOf, he]
  · intro kv err h hv
    rcases h with rfl | ⟨e, rfl, he⟩
    · simp [readClusterInfoOf, hv]
    · simp [readClusterInfoOf, he, hv]
  · intro kv e he
    simp [readClusterInfoOf, he]

/-- Instances of `readClusterInfo_uninitialised`: an empty store, a store
    holding the empty object, and a store that cannot be reached. -/
theorem readClusterInfo_uninitialised_witness :
    (readClusterInfo sampleJson world0 env0).2 = ({ Credentials := some ∅ }, 0, none)
    ∧ readClusterInfoOf sampleJson
        (some { Key := CredentialsDBKey, Value := "\x7b\x7d", KVDBIndex := 5 }) none
        = ({ Credentials := some ∅ }, 0, none)
    ∧ (readClusterInfo sampleJson world0 envGetFails).2
        = ({ Credentials := some ∅ }, 0, some "connection refused") := by
  have h := readClusterInfo_uninitialised sampleJson
  refine ⟨?_, ?_, ?_⟩
  · rw [h.1]
    exact h.2.1 _ (Or.inr ⟨"Key not found", rfl, by decide⟩)
  · exact h.2.2.1 _ none (Or.inl rfl) rfl
  · rw [h.1]
    exact h.2.2.2 _ "connection refused" (by decide)

end Claims

end Creds

namespace Volume

open Creds (Error GoMap)

/-- Claim C17 (the code departs from the claim).  Twenty-one of the
    twenty-two operations of the not-supported stand-ins return
    `ErrNotSupported` for every argument; `GetActiveRequests` of
    `statsNotSupported` returns a nil result and a nil error. -/
theorem standins_return_not_supported_except_active_requests
    (VolumeLocator Stats ActiveRequests CloudSnapInfo CloudSnapStatus : Type)
    (s₁ s₂ s₃ s₄ : String) (opts : Option (GoMap String)) (b₁ b₂ : Bool)
    (loc : Option VolumeLocator) (buf : List Nat) (size : Nat) (offset : Int)
    (info : Api.CloudsnapScheduleInfo) :
    ((blockNotSupported.Attach s₁ opts).2 = some ErrNotSupported
      ∧ blockNotSupported.Detach s₁ opts = some ErrNotSupported)
    ∧ ((snapshotNotSupported.Snapshot s₁ b₁ loc).2 = some ErrNotSupported
      ∧ snapshotNotSupported.Restore s₁ s₂ = some ErrNotSupported)
    ∧ ((ioNotSupported.Read s₁ buf size offset).2 = some ErrNotSupported
      ∧ (ioNotSupported.Write s₁ buf size offset).2 = some ErrNotSupported
      ∧ ioNotSupported.Flush s₁ = some ErrNotSupported)
    ∧ ((statsNotSupported.Stats Stats s₁ b₁).2 = some ErrNotSupported
      ∧ (statsNotSupported.UsedSize s₁).2 = some ErrNotSupported
      ∧ statsNotSupported.GetActiveRequests ActiveRequests = (none, none))
    ∧ ((backupNotSupported.GetCloudBkupCatalog s₁ s₂).2 = some ErrNotSupported
      ∧ (backupNotSupported.GetCloudBkupMetadata s₁ s₂).2 = some ErrNotSupported
      ∧ backupNotSupported.CloudBackup s₁ s₂ s₃ b₁ b₂ = some ErrNotSupported
      ∧ (backupNotSupported.CloudRestore s₁ s₂ s₃ s₄).2 = some ErrNotSupported
      ∧ (backupNotSupported.ListCloudSnaps CloudSnapInfo s₁ s₂ s₃ b₁).2
          = some ErrNotSupported
      ∧ backupNotSupported.DeleteCloudSnaps s₁ s₂ s₃ = some ErrNotSupported
      ∧ (backupNotSupported.CloudBackupStatusFromCache CloudSnapStatus s₁ b₁).2
          = some ErrNotSupported
      ∧ backupNotSupported.ChangeStateForCloudBackup s₁ s₂ = some ErrNotSupported
      ∧ (backupNotSupported.CreateCloudBackupSchedule info).2 = some ErrNotSupported
      ∧ backupNotSupported.UpdateCloudBackupSchedule s₁ info = some ErrNotSupported
      ∧ backupNotSupported.ListCloudBackupSchedules.2 = some ErrNotSupported
      ∧ backupNotSupported.DeleteCloudBackupSchedule s₁ = some ErrNotSupported) := by
  refine ⟨⟨rfl, rfl⟩, ⟨rfl, rfl⟩, ⟨rfl, rfl, rfl⟩, ⟨rfl, rfl, rfl⟩, ?_⟩
  exact ⟨rfl, rfl, rfl, rfl, rfl, rfl, rfl, rfl, rfl, rfl, rfl, rfl⟩

end Volume

namespace Server

open Creds (Error Outcome World Env Json CredentialEntry GoMap)

section ResolverLemmas

variable {D : Type}

theorem splitChars_head (sep : Char) (l : List Char) :
    (splitChars sep l).head? = some (l.takeWhile (fun c => c != sep)) := by
  induction l with
  | nil => rfl
  | cons c cs ih =>
    unfold splitChars
    by_cases h : c = sep
    · simp [h]
    · simp only [h, if_false]
      cases hs : splitChars sep cs with
      | nil => rw [hs] at ih; simp at ih
      | cons seg segs =>
        rw [hs] at ih
        simp only [List.head?_cons, Option.some.injEq] at ih
        have hb : (c != sep) = true := by simpa using h
        simp [List.takeWhile, hb, ih]

/-- The caller identity is the text before the first `/` of a non-empty
    `User-Agent`. -/
theorem callerIdentity_eq (userAgent : String) :
    callerIdentity userAgent
      = if userAgent.length > 0 then
          some (String.mk (userAgent.data.takeWhile (fun c => c != '/')))
        else none := by
  unfold callerIdentity stringsSplit
  split
  · rw [List.head?_map, splitChars_head]
    rfl
  · rfl

/-- Equation for `getVolDriver` in terms of the caller identity. -/
theorem getVolDriver_eq (Get : String → Except Error D) (vd : volAPI) (r : Request) :
    vd.getVolDriver Get r =
      match (match callerIdentity r.userAgent with
             | some c => (match Get c with
                          | .ok d => some d
                          | .error _ => none)
             | none => none) with
      | some d => .ok d
      | none =>
        match Get (vd.name ++ "-sched") with
        | .ok d => .ok d
        | .error _ => Get vd.name := by
  unfold volAPI.getVolDriver callerIdentity
  simp only [schedDriverPostFix]
  by_cases h : r.userAgent.length > 0
  · simp only [h, if_true]
    cases stringsSplit r.userAgent '/' with
    | nil => rfl
    | cons c cs =>
      simp only [List.head?_cons]
      cases Get c <;> rfl
  · simp only [h, if_false]

end ResolverLemmas

section ResolverClaims

variable {D : Type}

/-- Claim C13.  When the `User-Agent` is non-empty and its first
    `/`-delimited segment `c` names a registered driver, `getVolDriver`
    returns that driver, whatever is registered under the API name or its
    `-sched` variant. -/
theorem getVolDriver_prefers_caller (Get : String → Except Error D) (vd : volAPI)
    (r : Request) (c : String) (d : D) (hne : r.userAgent.length > 0)
    (hc : (stringsSplit r.userAgent '/').head? = some c) (hreg : Get c = .ok d) :
    vd.getVolDriver Get r = .ok d := by
  have hid : callerIdentity r.userAgent = some c := by
    unfold callerIdentity
    simp only [hne, if_true, hc]
  rw [getVolDriver_eq, hid]
  simp only [hreg]

/-- Instance of `getVolDriver_prefers_caller`: caller `foo`, API name `bar`,
    with `bar-sched` and `bar` registered as well. -/
theorem getVolDriver_prefers_caller_witness :
    sampleGet "foo" = .ok 1 ∧ sampleGet "bar-sched" = .ok 2 ∧ sampleGet "bar" = .ok 3
    ∧ sampleApi.getVolDriver sampleGet { userAgent := "foo/1.0", vars := fun _ => "" }
        = .ok 1 :=
  ⟨rfl, rfl, rfl,
    getVolDriver_prefers_caller sampleGet sampleApi
      { userAgent := "foo/1.0", vars := fun _ => "" } "foo" 1 (by decide) (by decide) rfl⟩

/-- Claim C14.  When the caller identity is absent or names no registered
    driver, and the API name followed by `-sched` is registered,
    `getVolDriver` returns the driver registered under that name, whether or
    not the bare name is registered too. -/
theorem getVolDriver_falls_to_sched (Get : String → Except Error D) (vd : volAPI)
    (r : Request) (d : D)
    (hid : ∀ c, callerIdentity r.userAgent = some c → ∃ e, Get c = .error e)
    (hs : Get (vd.name ++ "-sched") = .ok d) :
    vd.getVolDriver Get r = .ok d := by
  rw [getVolDriver_eq]
  cases hc : callerIdentity r.userAgent with
  | none => simp only [hs]
  | some c =>
    obtain ⟨e, he⟩ := hid c hc
    simp only [he, hs]

/-- Instances of `getVolDriver_falls_to_sched`: an empty `User-Agent`, and a
    caller `nobody` that is not registered; `bar` is registered too. -/
theorem getVolDriver_falls_to_sched_witness :
    sampleGet "bar" = .ok 3
    ∧ sampleApi.getVolDriver sampleGet { userAgent := "", vars := fun _ => "" } = .ok 2
    ∧ sampleApi.getVolDriver sampleGet { userAgent := "nobody/2", vars := fun _ => "" }
        = .ok 2 := by
  refine ⟨rfl, ?_, ?_⟩
  · refine getVolDriver_falls_to_sched sampleGet sampleApi _ 2 ?_ rfl
    intro c hc
    have h : callerIdentity "" = none := by decide
    exact absurd (hc.symm.trans h) (by simp)
  · refine getVolDriver_falls_to_sched sampleGet sampleApi _ 2 ?_ rfl
    intro c hc
    have : c = "nobody" := by
      have h : callerIdentity "nobody/2" = some "nobody" := by decide
      exact Option.some.inj (hc.symm.trans h)
    subst this
    exact ⟨"Driver not found", rfl⟩

/-- Claim C15.  `getVolDriver` returns an error exactly when none of the
    names it consults is registered: the caller identity (when the
    `User-Agent` gives one), the API name followed by `-sched`, and the bare
    API name.  With no caller identity and no `-sched` registration its
    result is exactly that of looking up the bare name. -/
theorem getVolDriver_fails_iff (Get : String → Except Error D) (vd : volAPI)
    (r : Request) :
    ((∃ e, vd.getVolDriver Get r = .error e) ↔
      ((∀ c, callerIdentity r.userAgent = some c → ∃ e, Get c = .error e)
        ∧ (∃ e, Get (vd.name ++ "-sched") = .error e)
        ∧ (∃ e, Get vd.name = .error e)))
    ∧ (callerIdentity r.userAgent = none → (∃ e, Get (vd.name ++ "-sched") = .error e) →
        vd.getVolDriver Get r = Get vd.name) := by
  rw [getVolDriver_eq]
  constructor
  · cases hc : callerIdentity r.userAgent with
    | none =>
      cases hs : Get (vd.name ++ "-sched") with
      | ok d => simp
      | error e => simp
    | some c =>
      cases hg : Get c with
      | ok d => simp [hg]
      | error e0 =>
        cases hs : Get (vd.name ++ "-sched") with
        | ok d => simp [hg]
        | error e => simp [hg]
  · intro hc hs
    obtain ⟨e, he⟩ := hs
    simp only [hc, he]

/-- Instances of `getVolDriver_fails_iff`: with only `bar` registered and no
    `User-Agent` the driver of `bar` is returned, and the API `baz` fails. -/
theorem getVolDriver_fails_iff_witness :
    sampleApi.getVolDriver sampleGetBare { userAgent := "", vars := fun _ => "" } = .ok 3
    ∧ ∃ e, volAPI.getVolDriver sampleGetBare { version := "v1", name := "baz" }
        { userAgent := "", vars := fun _ => "" } = .error e := by
  constructor
  · exact (getVolDriver_fails_iff sampleGetBare sampleApi
      { userAgent := "", vars := fun _ => "" }).2 (by decide) ⟨"Driver not found", rfl⟩
  · refine (getVolDriver_fails_iff sampleGetBare { version := "v1", name := "baz" }
      { userAgent := "", vars := fun _ => "" }).1.2 ⟨?_, ⟨_, rfl⟩, ⟨_, rfl⟩⟩
    intro c hc
    have h : callerIdentity "" = none := by decide
    exact absurd (hc.symm.trans h) (by simp)

theorem registryAfter_filter (events : List (RegistryEvent D)) :
    ∀ Get : String → Except Error D,
      registryAfter Get (events.filter (fun e => !e.isResolve)) = registryAfter Get events := by
  induction events with
  | nil => intro Get; rfl
  | cons e es ih =>
    intro Get
    cases e with
    | register name d =>
      rw [List.filter_cons_of_pos (by rfl)]
      simp only [registryAfter]
      exact ih _
    | unregister name err =>
      rw [List.filter_cons_of_pos (by rfl)]
      simp only [registryAfter]
      exact ih _
    | resolve vd r =>
      rw [List.filter_cons_of_neg (by simp [RegistryEvent.isResolve])]
      simp only [registryAfter]
      exact ih _

theorem resolutions_append_resolve (events : List (RegistryEvent D)) (vd : volAPI)
    (r : Request) :
    ∀ Get : String → Except Error D,
      resolutions Get (events ++ [RegistryEvent.resolve vd r])
        = resolutions Get events ++ [vd.getVolDriver (registryAfter Get events) r] := by
  induction events with
  | nil => intro Get; rfl
  | cons e es ih =>
    intro Get
    cases e with
    | register name d => simp [resolutions, registryAfter, ih]
    | unregister name err => simp [resolutions, registryAfter, ih]
    | resolve vd' r' => simp [resolutions, registryAfter, ih]

/-- Claim C16.  The result of `getVolDriver` is determined by what the
    registry answers for the names consulted, the API name and the
    `User-Agent`: (1) two registries that agree on those names give the same
    result; (2) after any history of registrations, removals and earlier
    resolutions, a resolution is that of `getVolDriver` on the registry
    produced by the registrations and removals alone; (3) a driver registered
    under the caller identity between two calls is returned by the second. -/
theorem getVolDriver_stateless (Get : String → Except Error D) (vd : volAPI) (r : Request) :
    (∀ Get' : String → Except Error D,
        (∀ c, callerIdentity r.userAgent = some c → Get c = Get' c) →
        Get (vd.name ++ "-sched") = Get' (vd.name ++ "-sched") →
        Get vd.name = Get' vd.name →
        vd.getVolDriver Get r = vd.getVolDriver Get' r)
    ∧ (∀ events : List (RegistryEvent D),
        resolutions Get (events ++ [RegistryEvent.resolve vd r])
          = resolutions Get events
            ++ [vd.getVolDriver
                  (registryAfter Get (events.filter (fun e => !e.isResolve))) r])
    ∧ (∀ c d, callerIdentity r.userAgent = some c →
        resolutions Get [RegistryEvent.resolve vd r, RegistryEvent.register c d,
            RegistryEvent.resolve vd r]
          = [vd.getVolDriver Get r, .ok d]) := by
  refine ⟨?_, ?_, ?_⟩
  · intro Get' hc hs hn
    rw [getVolDriver_eq, getVolDriver_eq, hs, hn]
    cases hi : callerIdentity r.userAgent with
    | none => rfl
    | some c => simp only [hc c hi]
  · intro events
    rw [resolutions_append_resolve, registryAfter_filter]
  · intro c d hc
    simp only [resolutions, List.cons.injEq, and_true, true_and]
    rw [getVolDriver_eq, hc]
    simp

/-- Instance of `getVolDriver_stateless`: with only `bar` registered, a call
    by caller `foo` gets driver `3`; once `foo` is registered as driver `7`
    the next call gets `7`. -/
theorem getVolDriver_stateless_witness :
    resolutions sampleGetBare
      [RegistryEvent.resolve sampleApi { userAgent := "foo/1.0", vars := fun _ => "" },
        RegistryEvent.register "foo" 7,
        RegistryEvent.resolve sampleApi { userAgent := "foo/1.0", vars := fun _ => "" }]
      = [.ok 3, .ok 7] := by
  have h := (getVolDriver_stateless sampleGetBare sampleApi
    { userAgent := "foo/1.0", vars := fun _ => "" }).2.2 "foo" 7 (by decide)
  rw [h]
  rfl

end ResolverClaims

section RouteLemmas

/-- The path of a cloud-snapshot route is a prefix, fixed by the constants,
    followed by the route text. -/
theorem cloudSnapPath_eq (k : PathConsts) (route : String) :
    cloudSnapPath k route k.APIVersion
      = (if k.APIVersion = "" then "/" ++ k.OsdCloudSnapshotPath
          else "/" ++ k.APIVersion ++ "/" ++ k.OsdCloudSnapshotPath) ++ route := by
  unfold cloudSnapPath volVersion
  split <;> simp [String.append_assoc]

/-- A text that lacks the first character of `sub` does not contain `sub`. -/
theorem containsChars_of_not_mem (c : Char) (sub : List Char) :
    ∀ l : List Char, c ∉ l → Creds.containsChars l (c :: sub) = false := by
  intro l
  induction l with
  | nil => intro _; rfl
  | cons x xs ih =>
    intro h
    have hx : c ≠ x := fun e => h (e ▸ List.mem_cons_self _ _)
    have hxs : c ∉ xs := fun e => h (List.mem_cons_of_mem _ e)
    simp [Creds.containsChars, List.isPrefixOf, hx, ih hxs]

/-- A cloud-snapshot path built of brace-free constants and a brace-free
    route text names no variable. -/
theorem declaresVar_cloudSnapPath (k : PathConsts) (hk : k.braceFree = true)
    (route key : String) (hr : route.data.contains '\x7b' = false) :
    declaresVar (cloudSnapPath k route k.APIVersion) key = false := by
  have hk1 : '\x7b' ∉ k.OsdCloudSnapshotPath.data := by
    simp [PathConsts.braceFree] at hk
    exact hk.1
  have hk2 : '\x7b' ∉ k.APIVersion.data := by
    simp [PathConsts.braceFree] at hk
    exact hk.2
  have hr1 : '\x7b' ∉ route.data := by simpa using hr
  have hs : ("/" : String).data = ['/'] := rfl
  have hb : ("\x7b" : String).data = ['\x7b'] := rfl
  unfold declaresVar Creds.stringsContains
  rw [String.data_append, String.data_append, hb]
  apply containsChars_of_not_mem
  rw [cloudSnapPath_eq]
  split <;>
    simp [String.data_append, hs, hk1, hk2, hr1]

/-- A request that reaches its handler through a cloud-snapshot route whose
    route text names no variable carries no variable at all. -/
theorem routeRequest_cloudSnap_vars {H : Type} (k : PathConsts) (hk : k.braceFree = true)
    (verb route : String) (fn : H) (hr : route.data.contains '\x7b' = false)
    (userAgent : String) (bound : String → String) (query : GoMap (List String))
    (key : String) :
    (routeRequest { verb := verb, path := cloudSnapPath k route k.APIVersion, fn := fn }
      userAgent bound query).vars key = "" := by
  simp [routeRequest, declaresVar_cloudSnapPath k hk route key hr]

/-- The reader `strconvParseUint` on sample texts: the bases of base 0, the
    underscore rule, and the 64-bit bound. -/
theorem strconvParseUint_samples :
    strconvParseUint "7" = .ok 7
    ∧ strconvParseUint "0" = .ok 0
    ∧ strconvParseUint "0x1F" = .ok 31
    ∧ strconvParseUint "0b101" = .ok 5
    ∧ strconvParseUint "0o17" = .ok 15
    ∧ strconvParseUint "017" = .ok 15
    ∧ strconvParseUint "1_000" = .ok 1000
    ∧ strconvParseUint "18446744073709551615" = .ok (2 ^ 64 - 1)
    ∧ strconvParseUint "18446744073709551616"
        = .error "strconv.ParseUint: parsing \"18446744073709551616\": value out of range"
    ∧ strconvParseUint "abc" = .error "strconv.ParseUint: parsing \"abc\": invalid syntax"
    ∧ strconvParseUint "" = .error "strconv.ParseUint: parsing \"\": invalid syntax"
    ∧ strconvParseUint "-1" = .error "strconv.ParseUint: parsing \"-1\": invalid syntax"
    ∧ strconvParseUint "1__0" = .error "strconv.ParseUint: parsing \"1__0\": invalid syntax"
    ∧ strconvParseUint "08" = .error "strconv.ParseUint: parsing \"08\": invalid syntax" := by
  refine ⟨?_, ?_, ?_, ?_, ?_, ?_, ?_, ?_, ?_, ?_, ?_, ?_, ?_, ?_⟩ <;> rfl

end RouteLemmas

section HandlerClaims

variable {V : Type}

/-- Claim C18 (the code departs from the claim).  Whenever the Credential
    Manager operation returns `nil`, the `create`, `update` and `delete`
    handlers evaluate `err.Error()` on that nil error and panic: no
    `CredentialResponse` is written. -/
theorem cred_handlers_panic_on_success (J : Json V) (w : World V) (env : Env) (r : Request)
    (cred : CredentialEntry V) :
    ((Creds.CredentialManager.Create J w env cred).2 = .returned none →
      (credAPI.create J true w env (.ok cred)).2
        = .panicked "runtime error: invalid memory address or nil pointer dereference")
    ∧ ((Creds.CredentialManager.Update J w env (r.vars "uuid") cred).2 = .returned none →
      (credAPI.update J true w env r (.ok cred)).2
        = .panicked "runtime error: invalid memory address or nil pointer dereference")
    ∧ ((Creds.CredentialManager.Delete J w env (r.vars "uuid")).2 = .returned none →
      (credAPI.delete J true w env r).2
        = .panicked "runtime error: invalid memory address or nil pointer dereference") := by
  refine ⟨?_, ?_, ?_⟩
  · intro h
    have hc : Creds.CredentialManager.Create J w env cred
        = ((Creds.CredentialManager.Create J w env cred).1, .returned none) := Prod.ext rfl h
    simp only [credAPI.create, credsInst, if_true]
    rw [hc]
    rfl
  · intro h
    have hc : Creds.CredentialManager.Update J w env (r.vars "uuid") cred
        = ((Creds.CredentialManager.Update J w env (r.vars "uuid") cred).1, .returned none) := Prod.ext rfl h
    simp only [credAPI.update, credsInst, if_true]
    rw [hc]
    rfl
  · intro h
    have hc : Creds.CredentialManager.Delete J w env (r.vars "uuid")
        = ((Creds.CredentialManager.Delete J w env (r.vars "uuid")).1, .returned none) := Prod.ext rfl h
    simp only [credAPI.delete, credsInst, if_true]
    rw [hc]
    rfl

/-- Instance of `cred_handlers_panic_on_success`: creating, updating and
    deleting `u1` with all services answering without error. -/
theorem cred_handlers_panic_on_success_witness :
    (credAPI.create Creds.sampleJson true Creds.world0 Creds.env0 (.ok ⟨"aws", "key"⟩)).2
        = .panicked "runtime error: invalid memory address or nil pointer dereference"
    ∧ (credAPI.update Creds.sampleJson true Creds.world0 Creds.env0
          { userAgent := "", vars := fun _ => "u1" } (.ok ⟨"aws", "key"⟩)).2
        = .panicked "runtime error: invalid memory address or nil pointer dereference"
    ∧ (credAPI.delete Creds.sampleJson true Creds.worldOne Creds.env0
          { userAgent := "", vars := fun _ => "u1" }).2
        = .panicked "runtime error: invalid memory address or nil pointer dereference" :=
  ⟨(cred_handlers_panic_on_success Creds.sampleJson Creds.world0 Creds.env0
      { userAgent := "", vars := fun _ => "u1" } ⟨"aws", "key"⟩).1 (by decide),
    (cred_handlers_panic_on_success Creds.sampleJson Creds.world0 Creds.env0
      { userAgent := "", vars := fun _ => "u1" } ⟨"aws", "key"⟩).2.1 (by decide),
    (cred_handlers_panic_on_success Creds.sampleJson Creds.worldOne Creds.env0
      { userAgent := "", vars := fun _ => "u1" } ⟨"aws", "key"⟩).2.2 (by decide)⟩

/-- Claim C19 (the code departs from the claim).  Both schedule handlers read
    `maxbackups`, the schedule expression and the credential id from
    `mux.Vars`, but the routes registered for them name no variable.  So for
    every request that reaches them through these routes, whatever the client
    sent: (1) `maxbackups` reads as empty and the handler's result does not
    depend on `strconv.ParseUint` (the check never runs); (2) when a driver
    resolves, the driver is called, with `MaxBackups = 0` and an empty
    schedule expression and credential id. -/
theorem sched_routes_lose_maxbackups (Get : String → Except Error VolumeDriver)
    (ParseUint : String → Except Error Nat) (vd : volAPI) (k : PathConsts)
    (hk : k.braceFree = true) (userAgent : String) (bound : String → String)
    (query : GoMap (List String)) :
    (cloudsnapCreateSchedRoute k ∈ volAPI.Routes k
      ∧ cloudsnapUpdateSchedRoute k ∈ volAPI.Routes k)
    ∧ ((routeRequest (cloudsnapCreateSchedRoute k) userAgent bound query).vars "maxbackups" = ""
      ∧ (routeRequest (cloudsnapUpdateSchedRoute k) userAgent bound query).vars "maxbackups"
          = "")
    ∧ (∀ ParseUint2 : String → Except Error Nat,
        vd.cloudsnapCreateSched Get ParseUint2
            (routeRequest (cloudsnapCreateSchedRoute k) userAgent bound query)
          = vd.cloudsnapCreateSched Get ParseUint
            (routeRequest (cloudsnapCreateSchedRoute k) userAgent bound query)
        ∧ vd.cloudsnapUpdateSched Get ParseUint2
            (routeRequest (cloudsnapUpdateSchedRoute k) userAgent bound query)
          = vd.cloudsnapUpdateSched Get ParseUint
            (routeRequest (cloudsnapUpdateSchedRoute k) userAgent bound query))
    ∧ (∀ d, vd.getVolDriver Get
          (routeRequest (cloudsnapCreateSchedRoute k) userAgent bound query) = .ok d →
        (vd.cloudsnapCreateSched Get ParseUint
          (routeRequest (cloudsnapCreateSchedRoute k) userAgent bound query)).1
          = [DriverCall.CreateCloudBackupSchedule
              { VolumeID := "", Schedule := "", CredID := "", MaxBackups := 0 }])
    ∧ (∀ d, vd.getVolDriver Get
          (routeRequest (cloudsnapUpdateSchedRoute k) userAgent bound query) = .ok d →
        (vd.cloudsnapUpdateSched Get ParseUint
          (routeRequest (cloudsnapUpdateSchedRoute k) userAgent bound query)).1
          = [DriverCall.UpdateCloudBackupSchedule ""
              { VolumeID := "", Schedule := "", CredID := "", MaxBackups := 0 }]) := by
  have hc : ∀ key, (routeRequest (cloudsnapCreateSchedRoute k) userAgent bound query).vars key
      = "" := fun key =>
    routeRequest_cloudSnap_vars k hk "PUT" "/createcloudsnapsched" _ (by decide) _ _ _ key
  have hu : ∀ key, (routeRequest (cloudsnapUpdateSchedRoute k) userAgent bound query).vars key
      = "" := fun key =>
    routeRequest_cloudSnap_vars k hk "POST" "/updatecloudsnapsched" _ (by decide) _ _ _ key
  refine ⟨⟨by simp [volAPI.Routes, cloudsnapCreateSchedRoute],
      by simp [volAPI.Routes, cloudsnapUpdateSchedRoute]⟩, ⟨hc _, hu _⟩, ?_, ?_, ?_⟩
  · intro ParseUint2
    constructor
    · simp only [volAPI.cloudsnapCreateSched, hc, ne_eq, not_true_eq_false, if_false]
    · simp only [volAPI.cloudsnapUpdateSched, hu, ne_eq, not_true_eq_false, if_false]
  · intro d hd
    simp only [volAPI.cloudsnapCreateSched, hc, hd, ne_eq, not_true_eq_false, if_false]
    rcases d.CreateCloudBackupSchedule
        { VolumeID := "", Schedule := "", CredID := "", MaxBackups := 0 } with
      ⟨uuid, _ | err⟩ <;> rfl
  · intro d hd
    simp only [volAPI.cloudsnapUpdateSched, hu, hd, ne_eq, not_true_eq_false, if_false]

/-- Instance of `sched_routes_lose_maxbackups`: the requests
    `PUT /v1/osd-cloudsnapshot/createcloudsnapsched` and
    `POST /v1/osd-cloudsnapshot/updatecloudsnapsched`, sent with
    `maxbackups=abc` and again with `maxbackups=7`, each with `sched=daily`
    and `credid=cred1`, reach the driver with the zero schedule, and the
    create handler answers with the new schedule id, not with an error. -/
theorem sched_routes_lose_maxbackups_witness :
    samplePaths.braceFree = true
    ∧ (sampleApi.cloudsnapCreateSched sampleDrivers strconvParseUint
        (routeRequest (cloudsnapCreateSchedRoute samplePaths) "" (fun _ => "")
          (sampleSchedQuery "abc"))).1
        = [DriverCall.CreateCloudBackupSchedule
            { VolumeID := "", Schedule := "", CredID := "", MaxBackups := 0 }]
    ∧ (sampleApi.cloudsnapUpdateSched sampleDrivers strconvParseUint
        (routeRequest (cloudsnapUpdateSchedRoute samplePaths) "" (fun _ => "")
          (sampleSchedQuery "7"))).1
        = [DriverCall.UpdateCloudBackupSchedule ""
            { VolumeID := "", Schedule := "", CredID := "", MaxBackups := 0 }]
    ∧ (sampleApi.cloudsnapCreateSched sampleDrivers strconvParseUint
        (routeRequest (cloudsnapCreateSchedRoute samplePaths) "" (fun _ => "")
          (sampleSchedQuery "abc"))).2 = .json "sched-1" :=
  ⟨by decide,
    (sched_routes_lose_maxbackups sampleDrivers strconvParseUint sampleApi samplePaths
      (by decide) "" (fun _ => "") (sampleSchedQuery "abc")).2.2.2.1 sampleDriver rfl,
    (sched_routes_lose_maxbackups sampleDrivers strconvParseUint sampleApi samplePaths
      (by decide) "" (fun _ => "") (sampleSchedQuery "7")).2.2.2.2 sampleDriver rfl,
    by decide⟩

/-- Claim C20.  The update-schedule handler either makes no call on the
    driver, or calls `UpdateCloudBackupSchedule` once with the request's
    schedule id and a schedule info whose `VolumeID` is empty, whatever the
    request holds, and whose other fields are the request's schedule
    expression, its credential id and the `maxbackups` number (0 when the
    request gives none). -/
theorem update_sched_sends_no_volume_id (Get : String → Except Error VolumeDriver)
    (ParseUint : String → Except Error Nat) (vd : volAPI) (r : Request) :
    (vd.cloudsnapUpdateSched Get ParseUint r).1 = []
    ∨ ∃ n, ((r.vars "maxbackups" = "" ∧ n = 0) ∨ ParseUint (r.vars "maxbackups") = .ok n)
        ∧ (vd.cloudsnapUpdateSched Get ParseUint r).1
          = [DriverCall.UpdateCloudBackupSchedule (r.vars "uuid")
              { VolumeID := "", Schedule := r.vars "sched",
                CredID := r.vars "credid", MaxBackups := n }] := by
  unfold volAPI.cloudsnapUpdateSched
  cases hd : vd.getVolDriver Get r with
  | error e0 => exact Or.inl rfl
  | ok d =>
    by_cases hne : r.vars "maxbackups" = ""
    · exact Or.inr ⟨0, Or.inl ⟨hne, rfl⟩, by simp [hne]⟩
    · cases hp : ParseUint (r.vars "maxbackups") with
      | error e => exact Or.inl (by simp [hne, hp])
      | ok n => exact Or.inr ⟨n, Or.inr rfl, by simp [hne, hp]⟩

/-- Claim C21 (as stated it fails).  A driver that declines the backup group
    knows no schedule, yet `DELETE /v1/osd-cloudsnapshot/deletecloudsnapsched`
    for schedule `sched-1` answers with the error string of `ErrNotSupported`,
    and the enumeration that follows is an error response. -/
theorem delete_sched_on_declining_driver_fails :
    sampleApi.cloudsnapDeleteSched notSupportedDrivers
        (routeRequest (cloudsnapDeleteSchedRoute samplePaths) "" (fun _ => "")
          (sampleSchedQuery ""))
        = ([DriverCall.DeleteCloudBackupSchedule ""],
            .json { Error := "Operation not supported" })
    ∧ sampleApi.cloudsnapEnumerateSched notSupportedDrivers
        (routeRequest (cloudsnapEnumerateSchedRoute samplePaths) "" (fun _ => "") ∅)
        = ([DriverCall.ListCloudBackupSchedules],
            .error "Failed to enumerate schedules: Operation not supported" 400) := by
  decide

/-- Claim C21 (amended).  Let the resolved driver implement the schedule
    operations: its listing never fails, and deleting an id that it does not
    list returns no error and brings no unlisted id into the listing.  Then for
    every schedule id unknown to the driver, a delete request whose `uuid`
    variable is also unknown to it (the id itself when the variable carries it,
    the empty text for a request through the registered route) is answered
    with an empty error string after exactly one delete call, and the
    enumeration served next by the same driver is its listing after that
    call, which does not contain the id. -/
theorem delete_unknown_sched_succeeds {S : Type} (b : ScheduleDriver S)
    (Get : S → String → Except Error VolumeDriver) (vd : volAPI) (r r2 : Request) (s : S)
    (id : String)
    (hd : ∀ t, vd.getVolDriver (Get t) r = .ok (b.view t))
    (hd2 : ∀ t, vd.getVolDriver (Get t) r2 = .ok (b.view t))
    (hlist : ∀ t, (b.ListCloudBackupSchedules t).2 = none)
    (hdel : ∀ t j, Creds.entryOf (b.ListCloudBackupSchedules t).1 j = none →
      (b.DeleteCloudBackupSchedule t j).2 = none)
    (hkeep : ∀ t j i, Creds.entryOf (b.ListCloudBackupSchedules t).1 j = none →
      Creds.entryOf (b.ListCloudBackupSchedules t).1 i = none →
      Creds.entryOf (b.ListCloudBackupSchedules (b.DeleteCloudBackupSchedule t j).1).1 i
        = none)
    (hid : Creds.entryOf (b.ListCloudBackupSchedules s).1 id = none)
    (hreq : Creds.entryOf (b.ListCloudBackupSchedules s).1 (r.vars "uuid") = none) :
    vd.cloudsnapDeleteSched (Get s) r
        = ([DriverCall.DeleteCloudBackupSchedule (r.vars "uuid")], .json { Error := "" })
    ∧ vd.cloudsnapEnumerateSched
          (Get (b.after s (vd.cloudsnapDeleteSched (Get s) r).1)) r2
        = ([DriverCall.ListCloudBackupSchedules],
            .json (b.ListCloudBackupSchedules
              (b.after s (vd.cloudsnapDeleteSched (Get s) r).1)).1)
    ∧ Creds.entryOf
        (b.ListCloudBackupSchedules (b.after s (vd.cloudsnapDeleteSched (Get s) r).1)).1 id
        = none := by
  have h1 : vd.cloudsnapDeleteSched (Get s) r
      = ([DriverCall.DeleteCloudBackupSchedule (r.vars "uuid")], .json { Error := "" }) := by
    simp [volAPI.cloudsnapDeleteSched, hd s, ScheduleDriver.view, hdel s _ hreq]
  have h2 : b.after s (vd.cloudsnapDeleteSched (Get s) r).1
      = (b.DeleteCloudBackupSchedule s (r.vars "uuid")).1 := by
    rw [h1]
    rfl
  refine ⟨h1, ?_, ?_⟩
  · rw [h2]
    have hl := hlist (b.DeleteCloudBackupSchedule s (r.vars "uuid")).1
    rcases hL : b.ListCloudBackupSchedules (b.DeleteCloudBackupSchedule s (r.vars "uuid")).1
      with ⟨m, e⟩
    rw [hL] at hl
    simp only at hl
    subst hl
    simp [volAPI.cloudsnapEnumerateSched, hd2, ScheduleDriver.view, hL]
  · rw [h2]
    exact hkeep s _ id hreq hid

/-- Instance of `delete_unknown_sched_succeeds`: the driver that keeps its
    schedules in memory holds `sched-1`; the request
    `DELETE /v1/osd-cloudsnapshot/deletecloudsnapsched?uuid=sched-9` is
    answered without error and the enumeration that follows lists `sched-1`
    only, hence not `sched-9`. -/
theorem delete_unknown_sched_succeeds_witness :
    Creds.entryOf (memoryDriver.ListCloudBackupSchedules sampleRecords).1 "sched-9" = none
    ∧ sampleApi.cloudsnapDeleteSched (memoryDrivers sampleRecords)
        (routeRequest (cloudsnapDeleteSchedRoute samplePaths) "" (fun _ => "")
          (Finmap.singleton "uuid" ["sched-9"]))
      = ([DriverCall.DeleteCloudBackupSchedule ""], .json { Error := "" })
    ∧ sampleApi.cloudsnapEnumerateSched
        (memoryDrivers (memoryDriver.after sampleRecords
          (sampleApi.cloudsnapDeleteSched (memoryDrivers sampleRecords)
            (routeRequest (cloudsnapDeleteSchedRoute samplePaths) "" (fun _ => "")
              (Finmap.singleton "uuid" ["sched-9"]))).1))
        (routeRequest (cloudsnapEnumerateSchedRoute samplePaths) "" (fun _ => "") ∅)
      = ([DriverCall.ListCloudBackupSchedules], .json (some sampleRecords.schedules)) := by
  have h := delete_unknown_sched_succeeds memoryDriver memoryDrivers sampleApi
    (routeRequest (cloudsnapDeleteSchedRoute samplePaths) "" (fun _ => "")
      (Finmap.singleton "uuid" ["sched-9"]))
    (routeRequest (cloudsnapEnumerateSchedRoute samplePaths) "" (fun _ => "") ∅)
    sampleRecords "sched-9"
    (fun _ => rfl) (fun _ => rfl) (fun _ => rfl) (fun _ _ _ => rfl)
    (fun t j i _ hi => by
      simp only [memoryDriver, Creds.entryOf, Option.some_bind] at hi ⊢
      by_cases hij : i = j
      · subst hij
        exact Finmap.lookup_erase _ _
      · rw [Finmap.lookup_erase_ne hij]
        exact hi)
    (by decide) (by decide)
  exact ⟨by decide, h.1, h.2.1.trans (by decide)⟩

/-- Claim C22 (the code departs from the claim).  The status handler reads
    `vol` and `local` from `mux.Vars`, but the route registered for it names
    no variable.  So for every request that reaches it through that route,
    whatever volume id and locality flag the client sent, `local` reads as
    empty, `strconv.ParseBool` rejects it, and the handler makes no cache read
    on any driver: when a driver resolves it answers with a bad-request
    error, never with a mapping. -/
theorem cached_status_route_loses_local {Status : Type}
    (Get : String → Except Error (BackupStatusDriver Status)) (vd : volAPI) (k : PathConsts)
    (hk : k.braceFree = true) (userAgent : String) (bound : String → String)
    (query : GoMap (List String)) :
    cloudsnapStatusRoute k ∈ volAPI.Routes k
    ∧ (routeRequest (cloudsnapStatusRoute k) userAgent bound query).vars "vol" = ""
    ∧ (routeRequest (cloudsnapStatusRoute k) userAgent bound query).vars "local" = ""
    ∧ (vd.cloudsnapStatus Get
        (routeRequest (cloudsnapStatusRoute k) userAgent bound query)).1 = []
    ∧ (∀ d, vd.getVolDriver Get
          (routeRequest (cloudsnapStatusRoute k) userAgent bound query) = .ok d →
        vd.cloudsnapStatus Get (routeRequest (cloudsnapStatusRoute k) userAgent bound query)
          = ([], .error
              "Failed to take backup: strconv.ParseBool: parsing \"\": invalid syntax"
              400)) := by
  have hv : ∀ key, (routeRequest (cloudsnapStatusRoute k) userAgent bound query).vars key
      = "" := fun key =>
    routeRequest_cloudSnap_vars k hk "GET" "/cloudsnapstatus" _ (by decide) _ _ _ key
  have hp : strconvParseBool ""
      = (false, some "strconv.ParseBool: parsing \"\": invalid syntax") := by decide
  refine ⟨by simp [volAPI.Routes, cloudsnapStatusRoute], hv _, hv _, ?_, ?_⟩
  · simp only [volAPI.cloudsnapStatus, hv, hp]
    cases vd.getVolDriver Get (routeRequest (cloudsnapStatusRoute k) userAgent bound query)
      <;> rfl
  · intro d hd
    simp only [volAPI.cloudsnapStatus, hv, hp, hd]
    rfl

/-- Instance of `cached_status_route_loses_local`: with a registered driver
    whose status cache is empty,
    `GET /v1/osd-cloudsnapshot/cloudsnapstatus?vol=vol1&local=false` is
    answered with a bad-request error and the cache is not read. -/
theorem cached_status_route_loses_local_witness :
    samplePaths.braceFree = true
    ∧ sampleApi.cloudsnapStatus emptyCacheDrivers
        (routeRequest (cloudsnapStatusRoute samplePaths) "" (fun _ => "")
          (sampleStatusQuery "false"))
      = ([], .error
          "Failed to take backup: strconv.ParseBool: parsing \"\": invalid syntax" 400) :=
  ⟨by decide,
    (cached_status_route_loses_local emptyCacheDrivers sampleApi samplePaths (by decide) ""
      (fun _ => "") (sampleStatusQuery "false")).2.2.2.2
      { CloudBackupStatusFromCache := fun _ _ => (some ∅, none) } rfl⟩

/-- Claim C23 (the code departs from the claim).  The route registered for the
    credential `delete` handler names no variable, so for every request that
    reaches the handler through it, whatever its query string, `mux.Vars`
    gives `""` for `uuid` and the handler runs `Delete("")`.  On the one-entry
    document, `DELETE /v1/creds/deletecreds?uuid=u1` leaves `u1` in place. -/
theorem cred_delete_ignores_query_uuid {V : Type} (J : Json V) (w : World V) (env : Env)
    (userAgent : String) (bound : String → String) (query : GoMap (List String)) :
    credDeleteRoute ∈ credAPI.Routes
    ∧ (routeRequest credDeleteRoute userAgent bound query).vars "uuid" = ""
    ∧ (credAPI.delete J true w env (routeRequest credDeleteRoute userAgent bound query)).1
        = (Creds.CredentialManager.Delete J w env "").1
    ∧ Creds.entryOf
        (Creds.CredentialManager.List Creds.sampleJson
          (credAPI.delete Creds.sampleJson true Creds.worldOne Creds.env0
            (routeRequest credDeleteRoute "" (fun _ => "")
              (Finmap.singleton "uuid" ["u1"]))).1
          Creds.env0).2.1 "u1" = some "aws" := by
  have hv : (routeRequest credDeleteRoute userAgent bound query).vars "uuid" = "" := by
    have : declaresVar credDeleteRoute.path "uuid" = false := by decide
    simp [routeRequest, this]
  refine ⟨by decide, hv, ?_, by decide⟩
  simp only [credAPI.delete, credsInst, if_true, hv]
  rcases Creds.CredentialManager.Delete J w env "" with ⟨w1, (_ | e) | msg⟩ <;> rfl

/-- Claim C24.  `credAPI.Routes` is the list of the four credential routes
    (the four of the operation table, in another order), and `volAPI.Routes`
    holds the six schedule, status and change-state routes of the table, each
    bound to its handler, under paths that end with the route text. -/
theorem routes_match_operation_table (k : PathConsts) :
    credAPI.Routes
        = [ { verb := "GET", path := "/v1/creds/listcreds", fn := credHandler.list },
            { verb := "PUT", path := "/v1/creds/addcreds", fn := credHandler.create },
            { verb := "DELETE", path := "/v1/creds/deletecreds", fn := credHandler.delete },
            { verb := "POST", path := "/v1/creds/updatecreds", fn := credHandler.update } ]
    ∧ credAPI.Routes.Perm
        [ { verb := "GET", path := "/v1/creds/listcreds", fn := credHandler.list },
          { verb := "PUT", path := "/v1/creds/addcreds", fn := credHandler.create },
          { verb := "POST", path := "/v1/creds/updatecreds", fn := credHandler.update },
          { verb := "DELETE", path := "/v1/creds/deletecreds", fn := credHandler.delete } ]
    ∧ (∃ pre : String,
        ({ verb := "PUT", path := pre ++ "/createcloudsnapsched",
           fn := volHandler.cloudsnapCreateSched } : Route volHandler) ∈ volAPI.Routes k
        ∧ ({ verb := "POST", path := pre ++ "/updatecloudsnapsched",
             fn := volHandler.cloudsnapUpdateSched } : Route volHandler) ∈ volAPI.Routes k
        ∧ ({ verb := "GET", path := pre ++ "/listcloudsnapsched",
             fn := volHandler.cloudsnapEnumerateSched } : Route volHandler) ∈ volAPI.Routes k
        ∧ ({ verb := "DELETE", path := pre ++ "/deletecloudsnapsched",
             fn := volHandler.cloudsnapDeleteSched } : Route volHandler) ∈ volAPI.Routes k
        ∧ ({ verb := "GET", path := pre ++ "/cloudsnapstatus",
             fn := volHandler.cloudsnapStatus } : Route volHandler) ∈ volAPI.Routes k
        ∧ ({ verb := "POST", path := pre ++ "/changestate",
             fn := volHandler.cloudsnapChangeState } : Route volHandler)
            ∈ volAPI.Routes k) := by
  refine ⟨by decide, by decide,
    (if k.APIVersion = "" then "/" ++ k.OsdCloudSnapshotPath
      else "/" ++ k.APIVersion ++ "/" ++ k.OsdCloudSnapshotPath), ?_⟩
  simp only [← cloudSnapPath_eq]
  simp [volAPI.Routes]

/-- Claim C27.  `processErrorForVolSetResponse`: (1) with a nil error or a nil
    response the response is as before; (2) with an action whose `Mount` or
    `Attach` is OFF and an `ErrNotFound` error, the response gets an empty
    `VolumeResponse` and an empty `Volume`; (3) with any other non-nil error
    the `VolumeResponse` carries the error message and `Volume` is as before. -/
theorem processErrorForVolSetResponse_spec {Vol : Type} (emptyVolume : Vol)
    (action : Option Api.VolumeStateAction) (err : Option TypedError)
    (resp : Option (Api.VolumeSetResponse Vol)) :
    ((err = none ∨ resp = none) →
      processErrorForVolSetResponse emptyVolume action err resp = resp)
    ∧ (∀ a e rsp, action = some a →
        (a.Mount = Api.VolumeActionParam.VOLUME_ACTION_PARAM_OFF
          ∨ a.Attach = Api.VolumeActionParam.VOLUME_ACTION_PARAM_OFF) →
        err = some e → e.isErrNotFound = true → resp = some rsp →
        processErrorForVolSetResponse emptyVolume action err resp
          = some { Volume := some emptyVolume, VolumeResponse := some { Error := "" } })
    ∧ (∀ e rsp, err = some e → resp = some rsp →
        ¬ (e.isErrNotFound = true ∧ ∃ a, action = some a
            ∧ (a.Mount = Api.VolumeActionParam.VOLUME_ACTION_PARAM_OFF
              ∨ a.Attach = Api.VolumeActionParam.VOLUME_ACTION_PARAM_OFF)) →
        processErrorForVolSetResponse emptyVolume action err resp
          = some { Volume := rsp.Volume, VolumeResponse := some { Error := e.msg } }) := by
  refine ⟨?_, ?_, ?_⟩
  · rintro (rfl | rfl)
    · cases resp <;> rfl
    · cases err <;> rfl
  · rintro a e rsp rfl hoff rfl hnf rfl
    simp only [processErrorForVolSetResponse]
    have hc : (decide (a.Mount = Api.VolumeActionParam.VOLUME_ACTION_PARAM_OFF)
        || decide (a.Attach = Api.VolumeActionParam.VOLUME_ACTION_PARAM_OFF)) = true := by
      simpa using hoff
    simp [hc, hnf]
  · rintro e rsp rfl rfl hnot
    simp only [processErrorForVolSetResponse]
    cases action with
    | none => simp
    | some a =>
      by_cases hc : (decide (a.Mount = Api.VolumeActionParam.VOLUME_ACTION_PARAM_OFF)
          || decide (a.Attach = Api.VolumeActionParam.VOLUME_ACTION_PARAM_OFF)) = true
      · have hoff : a.Mount = Api.VolumeActionParam.VOLUME_ACTION_PARAM_OFF
            ∨ a.Attach = Api.VolumeActionParam.VOLUME_ACTION_PARAM_OFF := by
          simpa using hc
        have hnf : e.isErrNotFound = false := by
          cases h : e.isErrNotFound with
          | false => rfl
          | true => exact absurd ⟨h, a, rfl, hoff⟩ hnot
        simp [hc, hnf]
      · simp [hc]

/-- Instances of `processErrorForVolSetResponse_spec`: a nil error, a
    not-found error on unmount, and another error on unmount. -/
theorem processErrorForVolSetResponse_spec_witness :
    processErrorForVolSetResponse (0 : Nat)
        (some { Attach := .VOLUME_ACTION_PARAM_NONE, Mount := .VOLUME_ACTION_PARAM_OFF })
        none (some { Volume := some 7, VolumeResponse := none })
      = some { Volume := some 7, VolumeResponse := none }
    ∧ processErrorForVolSetResponse (0 : Nat)
        (some { Attach := .VOLUME_ACTION_PARAM_NONE, Mount := .VOLUME_ACTION_PARAM_OFF })
        (some { isErrNotFound := true, msg := "volume not found" })
        (some { Volume := some 7, VolumeResponse := none })
      = some { Volume := some 0, VolumeResponse := some { Error := "" } }
    ∧ processErrorForVolSetResponse (0 : Nat)
        (some { Attach := .VOLUME_ACTION_PARAM_NONE, Mount := .VOLUME_ACTION_PARAM_OFF })
        (some { isErrNotFound := false, msg := "device busy" })
        (some { Volume := some 7, VolumeResponse := none })
      = some { Volume := some 7, VolumeResponse := some { Error := "device busy" } } :=
  ⟨(processErrorForVolSetResponse_spec 0 _ none _).1 (Or.inl rfl),
    (processErrorForVolSetResponse_spec 0 _ _ _).2.1 _ _ _ rfl (Or.inl rfl) rfl rfl rfl,
    (processErrorForVolSetResponse_spec 0 _ _ _).2.2 _ _ rfl rfl (by simp)⟩

/-- Filling a fresh slice of `n` empty strings, behind the part `pre` already
    filled, with the values `v`: the values are stored while they fit, and the
    first one that does not fit panics. -/
theorem fillIds_append (v : List String) :
    ∀ (pre : List String) (n : Nat),
      fillIds (pre ++ List.replicate n "") pre.length v
        = if v.length ≤ n then
            .returned (pre ++ v ++ List.replicate (n - v.length) "")
          else .panicked "runtime error: index out of range" := by
  induction v with
  | nil => intro pre n; simp [fillIds]
  | cons s rest ih =>
    intro pre n
    cases n with
    | zero => simp [fillIds]
    | succ k =>
      have hset : (pre ++ List.replicate (k + 1) "").set pre.length s
          = (pre ++ [s]) ++ List.replicate k "" := by
        simp [List.replicate_succ]
      have hlen : pre.length + 1 = (pre ++ [s]).length := by simp
      unfold fillIds
      have hlt : pre.length < (pre ++ List.replicate (k + 1) "").length := by simp
      rw [if_pos hlt, hset, hlen, ih (pre ++ [s]) k]
      simp [Nat.succ_le_succ_iff]

/-- Claim C28 (the code departs from the claim).  `snapEnumerate` sizes the
    `ids` slice by the number of distinct query parameters, not by the number
    of volume ids `v`: with more ids than parameters the copy loop indexes out
    of range and panics, and otherwise the driver receives the ids followed by
    one empty string per missing position. -/
theorem snapEnumerate_sizes_ids_by_param_count {Vol : Type}
    (Get : String → Except Error (SnapshotDriver Vol)) (OptLabel OptVolumeID : String)
    (Unmarshal : String → Option (GoMap String) × Option Error) (vd : volAPI) (r : Request)
    (d : SnapshotDriver Vol) (v : List String)
    (hd : vd.getVolDriver Get r = .ok d)
    (hlab : r.query.lookup OptLabel = none)
    (hv : r.query.lookup OptVolumeID = some v) :
    (r.query.keys.card < v.length →
      vd.snapEnumerate Get OptLabel OptVolumeID Unmarshal r
        = .panicked "runtime error: index out of range")
    ∧ (v.length ≤ r.query.keys.card →
      ∃ written, vd.snapEnumerate Get OptLabel OptVolumeID Unmarshal r
        = .returned
            ([DriverCall.SnapEnumerate
                (some (v ++ List.replicate (r.query.keys.card - v.length) "")) none],
              written)) := by
  have hfill := fillIds_append v [] r.query.keys.card
  simp only [List.nil_append, List.length_nil] at hfill
  constructor
  · intro hlt
    rw [if_neg (by omega)] at hfill
    simp only [volAPI.snapEnumerate, hd, hlab, hv, hfill]
  · intro hle
    rw [if_pos hle] at hfill
    simp only [volAPI.snapEnumerate, hd, hlab, hv, hfill]
    rcases d.SnapEnumerate
        (some (v ++ List.replicate (r.query.keys.card - v.length) "")) none
      with ⟨snaps, _ | err⟩
    · exact ⟨_, rfl⟩
    · exact ⟨_, rfl⟩

/-- Instances of `snapEnumerate_sizes_ids_by_param_count`: two volume ids
    under the single parameter `VolumeID` make the handler panic; one volume
    id next to a parameter `Name` reaches the driver as two ids, the second
    one empty. -/
theorem snapEnumerate_sizes_ids_by_param_count_witness :
    sampleApi.snapEnumerate sampleSnapDrivers "Label" "VolumeID" sampleUnmarshalLabels
        (sampleQueryRequest (Finmap.singleton "VolumeID" ["a", "b"]))
      = .panicked "runtime error: index out of range"
    ∧ sampleApi.snapEnumerate sampleSnapDrivers "Label" "VolumeID" sampleUnmarshalLabels
        (sampleQueryRequest (Finmap.insert "Name" ["x"] (Finmap.singleton "VolumeID" ["a"])))
      = .returned ([DriverCall.SnapEnumerate (some ["a", ""]) none], [.json (some [])]) := by
  constructor
  · exact (snapEnumerate_sizes_ids_by_param_count sampleSnapDrivers "Label" "VolumeID"
      sampleUnmarshalLabels sampleApi
      (sampleQueryRequest (Finmap.singleton "VolumeID" ["a", "b"]))
      { SnapEnumerate := fun _ _ => (some [], none) } ["a", "b"] rfl (by decide)
      (by decide)).1 (by decide)
  · obtain ⟨written, h⟩ := (snapEnumerate_sizes_ids_by_param_count sampleSnapDrivers "Label"
      "VolumeID" sampleUnmarshalLabels sampleApi
      (sampleQueryRequest (Finmap.insert "Name" ["x"] (Finmap.singleton "VolumeID" ["a"])))
      { SnapEnumerate := fun _ _ => (some [], none) } ["a"] rfl (by decide)
      (by decide)).2 (by decide)
    decide

/-- Claim C29 (the code departs from the claim).  With the volume id present
    and a driver resolved: (1) when the cumulative option is supplied and
    `strconv.ParseBool` rejects its value, the stats handler writes no parse
    error and calls the driver's `Stats` with `cumulative = false`; (2) when
    the option is absent it calls `Stats` with `cumulative = true`. -/
theorem stats_ignores_cumulative_parse_failure {Stats : Type}
    (Get : String → Except Error (StatsDriver Stats)) (OptCumulative : String)
    (vd : volAPI) (r : Request) (d : StatsDriver Stats)
    (hid : r.hasVar "id" = true) (hd : vd.getVolDriver Get r = .ok d) :
    (∀ opt e, r.query.lookup OptCumulative = some opt →
      (strconvParseBool (stringsJoin opt "")).2 = some e →
      vd.stats Get OptCumulative r
        = .returned ([DriverCall.Stats (r.vars "id") false],
            match d.Stats (r.vars "id") false with
            | (_, some err) => .error ("Failed to get stats: " ++ err) 400
            | (stats, none) => .json stats))
    ∧ (r.query.lookup OptCumulative = none →
      vd.stats Get OptCumulative r
        = .returned ([DriverCall.Stats (r.vars "id") true],
            match d.Stats (r.vars "id") true with
            | (_, some err) => .error ("Failed to get stats: " ++ err) 400
            | (stats, none) => .json stats)) := by
  constructor
  · intro opt e hopt hparse
    have hb : (strconvParseBool (stringsJoin opt "")).1 = false := by
      unfold strconvParseBool at hparse ⊢
      split
      · rename_i h
        rw [if_pos h] at hparse
        cases hparse
      · split
        · rfl
        · rfl
    simp only [volAPI.stats, volAPI.parseID, hid, if_true, hopt, hd]
    rcases hp : strconvParseBool (stringsJoin opt "") with ⟨b, err⟩
    rw [hp] at hb
    simp only at hb
    subst hb
    rcases d.Stats (r.vars "id") false with ⟨stats, _ | err'⟩ <;>
      simp [StatusBadRequest]
  · intro hopt
    simp only [volAPI.stats, volAPI.parseID, hid, if_true, hopt, hd]
    rcases d.Stats (r.vars "id") true with ⟨stats, _ | err'⟩ <;> simp [StatusBadRequest]

/-- Instance of `stats_ignores_cumulative_parse_failure`: the request
    `GET /v1/osd-volumes/stats/vol1?Cumulative=maybe` reaches the driver with
    `cumulative = false`. -/
theorem stats_ignores_cumulative_parse_failure_witness :
    (strconvParseBool "maybe").2
        = some "strconv.ParseBool: parsing \"maybe\": invalid syntax"
    ∧ sampleApi.stats sampleStatsDrivers "Cumulative"
        (sampleStatsRequest (Finmap.singleton "Cumulative" ["maybe"]))
      = .returned ([DriverCall.Stats "vol1" false], .json (some 0)) := by
  refine ⟨by decide, ?_⟩
  have h := (stats_ignores_cumulative_parse_failure sampleStatsDrivers "Cumulative" sampleApi
    (sampleStatsRequest (Finmap.singleton "Cumulative" ["maybe"]))
    { Stats := fun _ _ => (some 0, none) } (by decide) rfl).1 ["maybe"]
      "strconv.ParseBool: parsing \"maybe\": invalid syntax" (by decide) (by decide)
  rw [h]
  decide

/-- Claim C30 (the code departs from the claim).  The decimal text
    `4294967297` is no known resource type number, yet `handleResourceType`
    accepts it: its low 32 bits are 1, so the table lookup succeeds and the
    type returned is the volume type, without error.  The four names in any
    letter case and the numbers 0 to 4 are accepted as the claim says, and
    `7` is refused. -/
theorem handleResourceType_accepts_truncated_number (unicodeToLower : Char → Char) :
    Api.ResourceType_name 4294967297 = none
    ∧ int32 4294967297 = 1
    ∧ handleResourceType unicodeToLower "4294967297"
        = (Api.ResourceType_RESOURCE_TYPE_VOLUME, none)
    ∧ handleResourceType unicodeToLower "VoLuMe" = (1, none)
    ∧ handleResourceType unicodeToLower "node" = (2, none)
    ∧ handleResourceType unicodeToLower "CLUSTER" = (3, none)
    ∧ handleResourceType unicodeToLower "Drive" = (4, none)
    ∧ handleResourceType unicodeToLower "0" = (0, none)
    ∧ handleResourceType unicodeToLower "4" = (4, none)
    ∧ handleResourceType unicodeToLower "7" = (0, some "Invalid resource type") := by
  have hl : ∀ s : String, s.data.all (fun c => decide (c.toNat < 128)) = true →
      stringsToLower unicodeToLower s = stringsToLower id s := by
    intro s hs
    unfold stringsToLower
    congr 1
    apply List.map_congr_left
    intro c hc
    have := List.all_eq_true.mp hs c hc
    simp only [decide_eq_true_eq] at this
    simp [this]
  have hh : ∀ s : String, s.data.all (fun c => decide (c.toNat < 128)) = true →
      handleResourceType unicodeToLower s = handleResourceType id s := by
    intro s hs
    unfold handleResourceType
    rw [hl s hs]
  refine ⟨by decide, by decide, ?_, ?_, ?_, ?_, ?_, ?_, ?_, ?_⟩ <;>
    (rw [hh _ (by decide)]; decide)

end HandlerClaims

end Server
